import Mathlib

/-!
Verification of the workflow registry / template-driven pipeline assembly
subsystem of the `mdw` repository.

The Python sources embedded here are:
  - `workflows/base.py`                                  (Pipeline and its `execute`)
  - `src/data_warehouse/workflows/core/registry.py`      (Registry)
  - `src/data_warehouse/workflows/tools/validator.py`    (WorkflowValidator)
  - `workflows/templates.py`                             (TemplateParser / TemplateGenerator)
  - `src/data_warehouse/workflows/core/discovery.py`     (component discovery)
  - `src/data_warehouse/workflows/core/workflow_manager.py` (WorkflowManager)

Modelling conventions:
  - Python `dict[str, X]` becomes an insertion-ordered association list
    `List (String × X)` with `dinsert` (overwrite in place / append) and
    `dlookup`; this matches CPython dict semantics for the operations the
    code uses (insertion, overwriting, membership, lookup).
  - A `raise` becomes `Except`; each distinct exception site gets its own
    constructor of an error type carrying the data interpolated into the
    Python message.
  - Component instances are modelled attribute-level: the attributes the
    registry / validator / manager actually read (`name`, class name,
    `config`, `source`, `output_format`, `accepts_formats`).  A missing
    attribute (`hasattr` false) is `Option.none`.
-/

/-- Python dict insertion `d[k] = v`: overwrite in place if the key is
present, otherwise append at the end (CPython preserves insertion order
and keeps the original position on overwrite). -/
def dinsert {α : Type} (k : String) (v : α) : List (String × α) → List (String × α)
  | [] => [(k, v)]
  | (k', v') :: rest => if k' = k then (k, v) :: rest else (k', v') :: dinsert k v rest

/-- Python dict lookup `d[k]` / `d.get(k)` as an `Option`. -/
def dlookup {α : Type} (k : String) : List (String × α) → Option α
  | [] => none
  | (k', v') :: rest => if k' = k then some v' else dlookup k rest

theorem dlookup_dinsert_self {α : Type} (k : String) (v : α) (l : List (String × α)) :
    dlookup k (dinsert k v l) = some v := by
  induction l with
  | nil => simp [dinsert, dlookup]
  | cons hd tl ih =>
    obtain ⟨k', v'⟩ := hd
    by_cases h : k' = k
    · simp [dinsert, dlookup, h]
    · simp [dinsert, dlookup, h, ih]

theorem dlookup_dinsert_ne {α : Type} (k k' : String) (v : α) (l : List (String × α))
    (h : k' ≠ k) : dlookup k' (dinsert k v l) = dlookup k' l := by
  induction l with
  | nil => simp [dinsert, dlookup, if_neg (Ne.symm h)]
  | cons hd tl ih =>
    obtain ⟨k₀, v₀⟩ := hd
    by_cases h0 : k₀ = k
    · subst h0
      simp [dinsert, dlookup, if_neg (Ne.symm h)]
    · simp only [dinsert, if_neg h0, dlookup, ih]

/-- A component *instance* as the registry / validator / manager see it:
`name` and `config` are set by `__init__` of the base classes
(`workflows/base.py` lines 26-36), `typeName` is `__class__.__name__`,
and `source` / `output_format` / `accepts_formats` are the optional
attributes the validator probes with `hasattr`. -/
structure CInst where
  name : String
  typeName : String
  config : List (String × String)
  source : Option String
  output_format : Option String
  accepts_formats : Option (List String)
deriving Repr, DecidableEq

/-- A component *class* (type) as discovery / the registry's type store see
it: `className` is `__name__`; the remaining fields record the attribute
values that instances of the class expose, so that
`component_class(name=..., config=...)` can be modelled. -/
structure CompClass where
  className : String
  source : Option String
  output_format : Option String
  accepts_formats : Option (List String)
deriving Repr, DecidableEq

/-- Instantiation `component_class(name=comp_name, config=comp_config)`
(workflow_manager.py line 265): the instance carries the user-chosen name
and config, and the class-determined attributes. -/
def CompClass.instantiate (c : CompClass) (name : String) (config : List (String × String)) :
    CInst :=
  ⟨name, c.className, config, c.source, c.output_format, c.accepts_formats⟩

/-- Pipeline at the attribute level (`workflows/base.py` `Pipeline.__init__`,
lines 225-248).  `extractor` is an `Option` because Python's dynamic typing
lets callers pass `None` (the validator's own tests do). -/
structure RPipeline where
  name : String
  extractor : Option CInst
  transformers : List CInst
  loader : Option CInst
  config : List (String × String)
deriving Repr, DecidableEq

/-- `Pipeline.__init__` (base.py lines 225-248): `transformers` defaults to
`[]` when `None` is passed, `config` defaults to the empty dict. -/
def Pipeline.init (name : String) (extractor : Option CInst)
    (transformers : Option (List CInst)) (loader : Option CInst)
    (config : Option (List (String × String))) : RPipeline :=
  ⟨name, extractor, transformers.getD [], loader, config.getD []⟩

/-- Errors raised by `registry.py`: `KeyError` and `ConfigurationError`,
each carrying the role it concerns and the offending name. -/
inductive RegErr where
  | keyError (role : String) (name : String)
  | configurationError (role : String) (name : String)
deriving Repr, DecidableEq

/-- The `Registry` of `workflows/core/registry.py` (lines 34-45): a
two-level store of instantiated *instances* (by user-chosen name) and
discovered *types* (by class name). -/
structure Registry where
  extractors : List (String × CInst)
  transformers : List (String × CInst)
  loaders : List (String × CInst)
  pipelines : List (String × RPipeline)
  extractor_types : List (String × CompClass)
  transformer_types : List (String × CompClass)
  loader_types : List (String × CompClass)
deriving Repr, DecidableEq

/-- `Registry.__init__`: all seven stores empty. -/
def Registry.init : Registry := ⟨[], [], [], [], [], [], []⟩

/-- `register_extractor_type` (registry.py lines 49-54): keyed by
`__name__`; a duplicate only logs a warning and overwrites. -/
def Registry.register_extractor_type (r : Registry) (c : CompClass) : Registry :=
  { r with extractor_types := dinsert c.className c r.extractor_types }

/-- `register_transformer_type` (registry.py lines 56-61). -/
def Registry.register_transformer_type (r : Registry) (c : CompClass) : Registry :=
  { r with transformer_types := dinsert c.className c r.transformer_types }

/-- `register_loader_type` (registry.py lines 63-68). -/
def Registry.register_loader_type (r : Registry) (c : CompClass) : Registry :=
  { r with loader_types := dinsert c.className c r.loader_types }

/-- `get_extractor_type` (registry.py lines 70-74): `KeyError` when the
class name is not registered. -/
def Registry.get_extractor_type (r : Registry) (className : String) :
    Except RegErr CompClass :=
  match dlookup className r.extractor_types with
  | some c => .ok c
  | none => .error (.keyError "extractor type" className)

/-- `get_transformer_type` (registry.py lines 76-80). -/
def Registry.get_transformer_type (r : Registry) (className : String) :
    Except RegErr CompClass :=
  match dlookup className r.transformer_types with
  | some c => .ok c
  | none => .error (.keyError "transformer type" className)

/-- `get_loader_type` (registry.py lines 82-86). -/
def Registry.get_loader_type (r : Registry) (className : String) :
    Except RegErr CompClass :=
  match dlookup className r.loader_types with
  | some c => .ok c
  | none => .error (.keyError "loader type" className)

/-- `register_extractor` (registry.py lines 102-114): a duplicate name only
logs a warning and *overwrites*; the method always succeeds.  (The
`ConfigurationError` for a non-string name is unrepresentable here since
`name` is typed `String`.)  The result pairs the post-state of the
registry with the exception, if any, mirroring mutation of `self`. -/
def Registry.register_extractor (r : Registry) (e : CInst) : Registry × Option RegErr :=
  ({ r with extractors := dinsert e.name e r.extractors }, none)

/-- `register_transformer` (registry.py lines 116-120): raises
`ConfigurationError` on a duplicate name, before any mutation. -/
def Registry.register_transformer (r : Registry) (t : CInst) : Registry × Option RegErr :=
  if (dlookup t.name r.transformers).isSome then
    (r, some (.configurationError "transformer" t.name))
  else
    ({ r with transformers := dinsert t.name t r.transformers }, none)

/-- `register_loader` (registry.py lines 122-126): raises
`ConfigurationError` on a duplicate name, before any mutation. -/
def Registry.register_loader (r : Registry) (l : CInst) : Registry × Option RegErr :=
  if (dlookup l.name r.loaders).isSome then
    (r, some (.configurationError "loader" l.name))
  else
    ({ r with loaders := dinsert l.name l r.loaders }, none)

/-- `register_pipeline` (registry.py lines 128-132): raises
`ConfigurationError` on a duplicate name, before any mutation. -/
def Registry.register_pipeline (r : Registry) (p : RPipeline) : Registry × Option RegErr :=
  if (dlookup p.name r.pipelines).isSome then
    (r, some (.configurationError "pipeline" p.name))
  else
    ({ r with pipelines := dinsert p.name p r.pipelines }, none)

/-- `get_extractor` (registry.py lines 163-167). -/
def Registry.get_extractor (r : Registry) (name : String) : Except RegErr CInst :=
  match dlookup name r.extractors with
  | some e => .ok e
  | none => .error (.keyError "extractor" name)

/-- `get_transformer` (registry.py lines 169-173). -/
def Registry.get_transformer (r : Registry) (name : String) : Except RegErr CInst :=
  match dlookup name r.transformers with
  | some t => .ok t
  | none => .error (.keyError "transformer" name)

/-- `get_loader` (registry.py lines 175-179). -/
def Registry.get_loader (r : Registry) (name : String) : Except RegErr CInst :=
  match dlookup name r.loaders with
  | some l => .ok l
  | none => .error (.keyError "loader" name)

/-- `get_pipeline` (registry.py lines 181-185). -/
def Registry.get_pipeline (r : Registry) (name : String) : Except RegErr RPipeline :=
  match dlookup name r.pipelines with
  | some p => .ok p
  | none => .error (.keyError "pipeline" name)

/-- Claim C3: the registry is a two-level store with a register/get
round-trip per level.  Registering a component type keyed by its class
name makes `get_*_type` of that class name return it; a successful
instance or pipeline registration makes the corresponding `get` of the
instance's own name return it; and `get` of any unregistered name
raises `KeyError`. -/
theorem C3_registry_round_trip :
    (∀ (r : Registry) (c : CompClass),
        (r.register_extractor_type c).get_extractor_type c.className = .ok c) ∧
    (∀ (r : Registry) (c : CompClass),
        (r.register_transformer_type c).get_transformer_type c.className = .ok c) ∧
    (∀ (r : Registry) (c : CompClass),
        (r.register_loader_type c).get_loader_type c.className = .ok c) ∧
    (∀ (r : Registry) (e : CInst),
        ((r.register_extractor e).1).get_extractor e.name = .ok e) ∧
    (∀ (r : Registry) (t : CInst), (r.register_transformer t).2 = none →
        ((r.register_transformer t).1).get_transformer t.name = .ok t) ∧
    (∀ (r : Registry) (l : CInst), (r.register_loader l).2 = none →
        ((r.register_loader l).1).get_loader l.name = .ok l) ∧
    (∀ (r : Registry) (p : RPipeline), (r.register_pipeline p).2 = none →
        ((r.register_pipeline p).1).get_pipeline p.name = .ok p) ∧
    (∀ (r : Registry) (n : String), dlookup n r.extractor_types = none →
        r.get_extractor_type n = .error (.keyError "extractor type" n)) ∧
    (∀ (r : Registry) (n : String), dlookup n r.transformer_types = none →
        r.get_transformer_type n = .error (.keyError "transformer type" n)) ∧
    (∀ (r : Registry) (n : String), dlookup n r.loader_types = none →
        r.get_loader_type n = .error (.keyError "loader type" n)) ∧
    (∀ (r : Registry) (n : String), dlookup n r.extractors = none →
        r.get_extractor n = .error (.keyError "extractor" n)) ∧
    (∀ (r : Registry) (n : String), dlookup n r.transformers = none →
        r.get_transformer n = .error (.keyError "transformer" n)) ∧
    (∀ (r : Registry) (n : String), dlookup n r.loaders = none →
        r.get_loader n = .error (.keyError "loader" n)) ∧
    (∀ (r : Registry) (n : String), dlookup n r.pipelines = none →
        r.get_pipeline n = .error (.keyError "pipeline" n)) := by
  refine ⟨?_, ?_, ?_, ?_, ?_, ?_, ?_, ?_, ?_, ?_, ?_, ?_, ?_, ?_⟩
  · intro r c
    simp [Registry.register_extractor_type, Registry.get_extractor_type, dlookup_dinsert_self]
  · intro r c
    simp [Registry.register_transformer_type, Registry.get_transformer_type,
      dlookup_dinsert_self]
  · intro r c
    simp [Registry.register_loader_type, Registry.get_loader_type, dlookup_dinsert_self]
  · intro r e
    simp [Registry.register_extractor, Registry.get_extractor, dlookup_dinsert_self]
  · intro r t h
    by_cases hp : (dlookup t.name r.transformers).isSome
    · simp [Registry.register_transformer, hp] at h
    · simp [Registry.register_transformer, hp, Registry.get_transformer, dlookup_dinsert_self]
  · intro r l h
    by_cases hp : (dlookup l.name r.loaders).isSome
    · simp [Registry.register_loader, hp] at h
    · simp [Registry.register_loader, hp, Registry.get_loader, dlookup_dinsert_self]
  · intro r p h
    by_cases hp : (dlookup p.name r.pipelines).isSome
    · simp [Registry.register_pipeline, hp] at h
    · simp [Registry.register_pipeline, hp, Registry.get_pipeline, dlookup_dinsert_self]
  · intro r n h; simp [Registry.get_extractor_type, h]
  · intro r n h; simp [Registry.get_transformer_type, h]
  · intro r n h; simp [Registry.get_loader_type, h]
  · intro r n h; simp [Registry.get_extractor, h]
  · intro r n h; simp [Registry.get_transformer, h]
  · intro r n h; simp [Registry.get_loader, h]
  · intro r n h; simp [Registry.get_pipeline, h]

/-- Sample component class used in concrete evaluations. -/
def sampleClass : CompClass := ⟨"CsvExtractor", some "file", some "list_of_dicts", none⟩

/-- Sample component instance used in concrete evaluations. -/
def sampleInst : CInst :=
  ⟨"csv_extractor", "CsvExtractor", [("path", "data.csv")], some "file", some "list_of_dicts", none⟩

/-- Sample pipeline used in concrete evaluations. -/
def samplePipe : RPipeline := ⟨"p1", some sampleInst, [], none, []⟩

/-- Concrete instantiation of the registry round-trip claim. -/
theorem C3_registry_round_trip_witness :
    (Registry.init.register_extractor_type sampleClass).get_extractor_type "CsvExtractor" =
      .ok sampleClass ∧
    ((Registry.init.register_transformer sampleInst).1).get_transformer "csv_extractor" =
      .ok sampleInst ∧
    ((Registry.init.register_pipeline samplePipe).1).get_pipeline "p1" = .ok samplePipe ∧
    Registry.init.get_extractor "missing" = .error (.keyError "extractor" "missing") := by
  refine ⟨?_, ?_, ?_, ?_⟩
  · exact C3_registry_round_trip.1 Registry.init sampleClass
  · exact C3_registry_round_trip.2.2.2.2.1 Registry.init sampleInst rfl
  · exact C3_registry_round_trip.2.2.2.2.2.2.1 Registry.init samplePipe rfl
  · exact C3_registry_round_trip.2.2.2.2.2.2.2.2.2.2.1 Registry.init "missing" rfl

/-- Claim C9: duplicate-name registration is asymmetric.
`register_extractor` overwrites an existing extractor instance and
succeeds, whereas `register_transformer`, `register_loader` and
`register_pipeline` raise `ConfigurationError` and leave the registry
unchanged. -/
theorem C9_duplicate_registration_asymmetry :
    (∀ (r : Registry) (x y : CInst), dlookup x.name r.extractors = some y →
        (r.register_extractor x).2 = none ∧
        dlookup x.name ((r.register_extractor x).1).extractors = some x) ∧
    (∀ (r : Registry) (t y : CInst), dlookup t.name r.transformers = some y →
        r.register_transformer t = (r, some (.configurationError "transformer" t.name))) ∧
    (∀ (r : Registry) (l y : CInst), dlookup l.name r.loaders = some y →
        r.register_loader l = (r, some (.configurationError "loader" l.name))) ∧
    (∀ (r : Registry) (p : RPipeline) (q : RPipeline), dlookup p.name r.pipelines = some q →
        r.register_pipeline p = (r, some (.configurationError "pipeline" p.name))) := by
  refine ⟨?_, ?_, ?_, ?_⟩
  · intro r x y _
    exact ⟨rfl, by simp [Registry.register_extractor, dlookup_dinsert_self]⟩
  · intro r t y h; simp [Registry.register_transformer, h]
  · intro r l y h; simp [Registry.register_loader, h]
  · intro r p q h; simp [Registry.register_pipeline, h]

/-- A second instance sharing a name with `sampleInst` but otherwise
different, used to exhibit overwriting. -/
def sampleInst' : CInst := ⟨"csv_extractor", "OtherExtractor", [], some "api", none, none⟩

/-- Registry already holding `sampleInst` under all the instance stores. -/
def dupRegistry : Registry :=
  ⟨[("csv_extractor", sampleInst)], [("csv_extractor", sampleInst)],
   [("csv_extractor", sampleInst)], [("p1", samplePipe)], [], [], []⟩

/-- Concrete instantiation of the duplicate-registration asymmetry claim. -/
theorem C9_duplicate_registration_asymmetry_witness :
    ((dupRegistry.register_extractor sampleInst').2 = none ∧
      dlookup "csv_extractor" ((dupRegistry.register_extractor sampleInst').1).extractors =
        some sampleInst') ∧
    dupRegistry.register_transformer sampleInst' =
      (dupRegistry, some (.configurationError "transformer" "csv_extractor")) ∧
    dupRegistry.register_loader sampleInst' =
      (dupRegistry, some (.configurationError "loader" "csv_extractor")) ∧
    dupRegistry.register_pipeline samplePipe =
      (dupRegistry, some (.configurationError "pipeline" "p1")) := by
  refine ⟨?_, ?_, ?_, ?_⟩
  · exact C9_duplicate_registration_asymmetry.1 dupRegistry sampleInst' sampleInst rfl
  · exact C9_duplicate_registration_asymmetry.2.1 dupRegistry sampleInst' sampleInst rfl
  · exact C9_duplicate_registration_asymmetry.2.2.1 dupRegistry sampleInst' sampleInst rfl
  · exact C9_duplicate_registration_asymmetry.2.2.2 dupRegistry samplePipe samplePipe rfl

/-- Behavioural model of `BaseExtractor` (`workflows/base.py` lines 18-73)
as `Pipeline.execute` uses it: `validate_source` (a boolean the code
checks) and `extract` (which may raise, hence `Except`). -/
structure BExtractor (α : Type) where
  name : String
  valid_source : Bool
  extract : Except String α

/-- Behavioural model of `BaseTransformer` (base.py lines 76-156):
`validate_input` / `validate_output` return booleans that `execute`
*ignores*, but they may raise; `transform` may raise. -/
structure BTransformer (α : Type) where
  name : String
  validate_input : α → Except String Bool
  transform : α → Except String α
  validate_output : α → Except String Bool

/-- Behavioural model of `BaseLoader` (base.py lines 159-214). -/
structure BLoader (α : Type) where
  name : String
  valid_destination : Bool
  load : α → Except String Unit

/-- Behavioural model of `Pipeline` (base.py lines 217-248). -/
structure BPipeline (α : Type) where
  name : String
  extractor : BExtractor α
  transformers : List (BTransformer α)
  loader : Option (BLoader α)

/-- One iteration of the transformer loop in `Pipeline.execute`
(base.py lines 275-286): validate input, transform, validate output;
the boolean results of the validations are discarded, only exceptions
propagate. -/
def runTransformerStep {α : Type} (t : BTransformer α) (d : α) : Except String α := do
  let _ ← t.validate_input d
  let d' ← t.transform d
  let _ ← t.validate_output d'
  pure d'

/-- The transformer loop of `Pipeline.execute`: each transformer consumes
the previous output, stopping at the first exception. -/
def runTransformers {α : Type} : List (BTransformer α) → α → Except String α
  | [], d => .ok d
  | t :: ts, d =>
    match runTransformerStep t d with
    | .ok d' => runTransformers ts d'
    | .error e => .error e

/-- Outcome of an execution: the returned data, and the data handed to the
loader (`none` when no loader ran). -/
structure ExecOutcome (α : Type) where
  result : α
  loaded : Option α

/-- `Pipeline.execute` (base.py lines 250-306): check the extractor
source, extract, run the transformers in order, then — only if a loader
is present — check its destination and load the final data; the final
data is returned in all successful cases.  All exceptions are wrapped in
`PipelineError` by the code; here the error is an opaque message, as C1
concerns only the successful control flow. -/
def BPipeline.execute {α : Type} (p : BPipeline α) : Except String (ExecOutcome α) :=
  if !p.extractor.valid_source then
    .error ("Extractor source for " ++ p.name ++ " is invalid")
  else
    match p.extractor.extract with
    | .error e => .error e
    | .ok d0 =>
      match runTransformers p.transformers d0 with
      | .error e => .error e
      | .ok d =>
        match p.loader with
        | some l =>
          if !l.valid_destination then
            .error ("Loader destination for " ++ p.name ++ " is invalid")
          else
            match l.load d with
            | .error e => .error e
            | .ok _ => .ok ⟨d, some d⟩
        | none => .ok ⟨d, none⟩

/-- Declarative chaining relation: `chainApplies ts d d'` holds when the
transformers in `ts`, applied left to right starting from `d`, each
succeed on the previous output and end at `d'`. -/
def chainApplies {α : Type} : List (BTransformer α) → α → α → Prop
  | [], d, d' => d' = d
  | t :: ts, d, d' => ∃ m, runTransformerStep t d = .ok m ∧ chainApplies ts m d'

theorem runTransformers_ok_iff {α : Type} (ts : List (BTransformer α)) (d d' : α) :
    runTransformers ts d = .ok d' ↔ chainApplies ts d d' := by
  induction ts generalizing d with
  | nil => simp [runTransformers, chainApplies, eq_comm]
  | cons t ts ih =>
    simp only [runTransformers, chainApplies]
    cases hstep : runTransformerStep t d with
    | error e => simp
    | ok m => simp [ih]

/-- Claim C1: `Pipeline.execute` runs the stages sequentially.  It succeeds
with outcome `r` exactly when the extractor's source is valid, extraction
yields some `d0`, the transformers applied in list order (each consuming
the previous output) carry `d0` to `r.result`, and — when a loader is
present — its destination is valid and it loads exactly the final data;
the final data is returned in all cases, loaded or not. -/
theorem C1_pipeline_execute_stages {α : Type} (p : BPipeline α) (r : ExecOutcome α) :
    p.execute = .ok r ↔
      (p.extractor.valid_source = true ∧
        ∃ d0, p.extractor.extract = .ok d0 ∧ chainApplies p.transformers d0 r.result ∧
          (match p.loader with
           | none => r.loaded = none
           | some l =>
               l.valid_destination = true ∧ l.load r.result = .ok () ∧
                 r.loaded = some r.result)) := by
  obtain ⟨res, ld⟩ := r
  unfold BPipeline.execute
  cases hvs : p.extractor.valid_source
  · simp [hvs]
  · simp only [hvs, Bool.not_true, Bool.false_eq_true, if_false, true_and]
    cases hex : p.extractor.extract with
    | error e => simp
    | ok d0 =>
      simp only [Except.ok.injEq]
      cases hrt : runTransformers p.transformers d0 with
      | error e =>
        simp only [← runTransformers_ok_iff]
        constructor
        · intro h; exact absurd h (by simp)
        · rintro ⟨d0', hd0, hchain, _⟩
          cases hd0
          rw [hrt] at hchain
          exact absurd hchain (by simp)
      | ok d =>
        cases hld : p.loader with
        | none =>
          simp only [← runTransformers_ok_iff]
          constructor
          · intro h
            cases h
            exact ⟨d0, rfl, by simpa using hrt, rfl⟩
          · rintro ⟨d0', hd0, hchain, hldd⟩
            cases hd0
            rw [hrt] at hchain
            cases hchain
            cases hldd
            rfl
        | some l =>
          cases hvd : l.valid_destination
          · simp [hvd]
          · simp only [hvd, Bool.not_true, Bool.false_eq_true, if_false, true_and,
              ← runTransformers_ok_iff]
            cases hload : l.load d with
            | error e =>
              constructor
              · intro h; exact absurd h (by simp)
              · rintro ⟨d0', hd0, hchain, hl, _⟩
                cases hd0
                rw [hrt] at hchain
                cases hchain
                rw [hload] at hl
                exact absurd hl (by simp)
            | ok u =>
              constructor
              · intro h
                cases h
                exact ⟨d0, rfl, by simpa using hrt, by simpa using hload, rfl⟩
              · rintro ⟨d0', hd0, hchain, _, hldd⟩
                cases hd0
                rw [hrt] at hchain
                cases hchain
                cases hldd
                rfl

/-- Errors raised by `tools/validator.py` (`ValidationError`), one
constructor per raise site, carrying the interpolated data. -/
inductive VErr where
  | componentMustHaveName (className : String)
  | extractorMustHaveSource (name : String)
  | pipelineMustHaveExtractor (pipeline : String)
  | pipelineMustHaveTransformer (pipeline : String)
  | transformerRejectsExtractorFormat (transformer : String) (fmt : String) (extractor : String)
  | transformerRejectsTransformerFormat (consumer : String) (fmt : String) (producer : String)
  | loaderRejectsFormat (loader : String) (fmt : String) (transformer : String)
deriving Repr, DecidableEq

/-- Python truthiness of an optional string attribute: falsy when the
attribute is missing (`hasattr` false) or the empty string. -/
def truthyAttr : Option String → Bool
  | none => false
  | some s => !(s == "")

/-- `_validate_extractor` (validator.py lines 55-76): the extractor must
have a truthy `source`; the `extract`-method check always passes for
`BaseExtractor` subclasses (the abstract method exists) and is omitted. -/
def WorkflowValidator.validate_extractor (e : CInst) : Except VErr Bool :=
  if !(truthyAttr e.source) then .error (.extractorMustHaveSource e.name)
  else .ok true

/-- `validate_component` on an extractor (validator.py lines 28-47): the
component must have a truthy `name`, then extractor-specific validation. -/
def WorkflowValidator.validate_component_extractor (e : CInst) : Except VErr Bool :=
  if e.name == "" then .error (.componentMustHaveName e.typeName)
  else WorkflowValidator.validate_extractor e

/-- `validate_component` on a transformer (lines 28-49 with
`_validate_transformer`, lines 78-95): truthy name; the
`transform`-method check always passes and is omitted. -/
def WorkflowValidator.validate_component_transformer (t : CInst) : Except VErr Bool :=
  if t.name == "" then .error (.componentMustHaveName t.typeName)
  else .ok true

/-- `validate_component` on a loader (lines 28-51 with `_validate_loader`,
lines 97-114). -/
def WorkflowValidator.validate_component_loader (l : CInst) : Except VErr Bool :=
  if l.name == "" then .error (.componentMustHaveName l.typeName)
  else .ok true

/-- `_validate_extractor_to_transformer_compatibility` (validator.py lines
160-184): only when the transformer declares `accepts_formats` and the
extractor declares `output_format` is membership checked. -/
def WorkflowValidator.validate_extractor_to_transformer (e t : CInst) : Except VErr Bool :=
  match t.accepts_formats, e.output_format with
  | some fs, some f =>
    if fs.contains f then .ok true
    else .error (.transformerRejectsExtractorFormat t.name f e.name)
  | _, _ => .ok true

/-- `_validate_transformer_to_transformer_compatibility` (lines 186-210). -/
def WorkflowValidator.validate_transformer_to_transformer (t1 t2 : CInst) : Except VErr Bool :=
  match t2.accepts_formats, t1.output_format with
  | some fs, some f =>
    if fs.contains f then .ok true
    else .error (.transformerRejectsTransformerFormat t2.name f t1.name)
  | _, _ => .ok true

/-- `_validate_transformer_to_loader_compatibility` (lines 212-234). -/
def WorkflowValidator.validate_transformer_to_loader (t l : CInst) : Except VErr Bool :=
  match l.accepts_formats, t.output_format with
  | some fs, some f =>
    if fs.contains f then .ok true
    else .error (.loaderRejectsFormat l.name f t.name)
  | _, _ => .ok true

/-- The `for transformer in pipeline.transformers` component-validation
loop of `validate_pipeline` (lines 139-140). -/
def WorkflowValidator.validate_components_list : List CInst → Except VErr Bool
  | [] => .ok true
  | t :: ts =>
    match WorkflowValidator.validate_component_transformer t with
    | .error e => .error e
    | .ok _ => WorkflowValidator.validate_components_list ts

/-- The `for i in range(len(pipeline.transformers) - 1)` compatibility
loop of `validate_pipeline` (lines 149-152): check each transformer
against the next. -/
def WorkflowValidator.validate_consecutive : CInst → List CInst → Except VErr Bool
  | _, [] => .ok true
  | a, b :: rest =>
    match WorkflowValidator.validate_transformer_to_transformer a b with
    | .error e => .error e
    | .ok _ => WorkflowValidator.validate_consecutive b rest

/-- `pipeline.transformers[-1]`: the last element of a non-empty list. -/
def lastOf (a : CInst) : List CInst → CInst
  | [] => a
  | b :: r => lastOf b r

/-- `validate_pipeline` (validator.py lines 116-158), in the source's
order: extractor presence, at-least-one-transformer, component
validation of extractor / transformers / loader, then adjacent-stage
format compatibility (extractor→first transformer, each transformer→the
next, last transformer→loader). -/
def WorkflowValidator.validate_pipeline (p : RPipeline) : Except VErr Bool :=
  match p.extractor with
  | none => .error (.pipelineMustHaveExtractor p.name)
  | some ex =>
    match p.transformers with
    | [] => .error (.pipelineMustHaveTransformer p.name)
    | t0 :: rest =>
      match WorkflowValidator.validate_component_extractor ex with
      | .error e => .error e
      | .ok _ =>
        match WorkflowValidator.validate_components_list (t0 :: rest) with
        | .error e => .error e
        | .ok _ =>
          match (match p.loader with
                 | some l => WorkflowValidator.validate_component_loader l
                 | none => .ok true) with
          | .error e => .error e
          | .ok _ =>
            match WorkflowValidator.validate_extractor_to_transformer ex t0 with
            | .error e => .error e
            | .ok _ =>
              match WorkflowValidator.validate_consecutive t0 rest with
              | .error e => .error e
              | .ok _ =>
                match p.loader with
                | some l =>
                  WorkflowValidator.validate_transformer_to_loader (lastOf t0 rest) l
                | none => .ok true

/-- Declared-format compatibility of one producer/consumer pair, as the
spec describes it: a pair is incompatible exactly when the consumer
declares `accepts_formats`, the producer declares `output_format`, and
the output format is not among the accepted ones. -/
def fmtCompatible (producerOut : Option String) (consumerAccepts : Option (List String)) : Bool :=
  match consumerAccepts, producerOut with
  | some fs, some f => fs.contains f
  | _, _ => true

/-- Pairwise compatibility of consecutive transformers. -/
def pairsCompatible : CInst → List CInst → Bool
  | _, [] => true
  | a, b :: r => fmtCompatible a.output_format b.accepts_formats && pairsCompatible b r

/-- Compatibility of every *adjacent* stage pair of a pipeline, and of
no other pair. -/
def adjacentCompatible (ex t0 : CInst) (rest : List CInst) (ld : Option CInst) : Bool :=
  fmtCompatible ex.output_format t0.accepts_formats &&
  pairsCompatible t0 rest &&
  (match ld with
   | some l => fmtCompatible (lastOf t0 rest).output_format l.accepts_formats
   | none => true)

/-- Individual validity of a non-extractor component: truthy name. -/
def componentOkGeneric (c : CInst) : Bool := !(c.name == "")

/-- Individual validity of an extractor: truthy name and truthy source. -/
def componentOkExtractor (e : CInst) : Bool := !(e.name == "") && truthyAttr e.source

/-- Individual validity of all components of a pipeline. -/
def componentsOk (ex : CInst) (ts : List CInst) (ld : Option CInst) : Bool :=
  componentOkExtractor ex && ts.all componentOkGeneric &&
  (match ld with | some l => componentOkGeneric l | none => true)

theorem validate_e2t_spec (e t : CInst) :
    (WorkflowValidator.validate_extractor_to_transformer e t = .ok true ↔
      fmtCompatible e.output_format t.accepts_formats = true) ∧
    ((∃ err, WorkflowValidator.validate_extractor_to_transformer e t = .error err) ↔
      fmtCompatible e.output_format t.accepts_formats = false) := by
  unfold WorkflowValidator.validate_extractor_to_transformer fmtCompatible
  cases t.accepts_formats with
  | none => simp
  | some fs =>
    cases e.output_format with
    | none => simp
    | some f => by_cases hc : f ∈ fs <;> simp [hc]

theorem validate_t2t_spec (t1 t2 : CInst) :
    (WorkflowValidator.validate_transformer_to_transformer t1 t2 = .ok true ↔
      fmtCompatible t1.output_format t2.accepts_formats = true) ∧
    ((∃ err, WorkflowValidator.validate_transformer_to_transformer t1 t2 = .error err) ↔
      fmtCompatible t1.output_format t2.accepts_formats = false) := by
  unfold WorkflowValidator.validate_transformer_to_transformer fmtCompatible
  cases t2.accepts_formats with
  | none => simp
  | some fs =>
    cases t1.output_format with
    | none => simp
    | some f => by_cases hc : f ∈ fs <;> simp [hc]

theorem validate_t2l_spec (t l : CInst) :
    (WorkflowValidator.validate_transformer_to_loader t l = .ok true ↔
      fmtCompatible t.output_format l.accepts_formats = true) ∧
    ((∃ err, WorkflowValidator.validate_transformer_to_loader t l = .error err) ↔
      fmtCompatible t.output_format l.accepts_formats = false) := by
  unfold WorkflowValidator.validate_transformer_to_loader fmtCompatible
  cases l.accepts_formats with
  | none => simp
  | some fs =>
    cases t.output_format with
    | none => simp
    | some f => by_cases hc : f ∈ fs <;> simp [hc]

theorem validate_consecutive_spec (a : CInst) (r : List CInst) :
    (WorkflowValidator.validate_consecutive a r = .ok true ↔ pairsCompatible a r = true) ∧
    ((∃ err, WorkflowValidator.validate_consecutive a r = .error err) ↔
      pairsCompatible a r = false) := by
  induction r generalizing a with
  | nil => simp [WorkflowValidator.validate_consecutive, pairsCompatible]
  | cons b r ih =>
    simp only [WorkflowValidator.validate_consecutive, pairsCompatible]
    cases h2 : WorkflowValidator.validate_transformer_to_transformer a b with
    | error err =>
      have hf : fmtCompatible a.output_format b.accepts_formats = false :=
        (validate_t2t_spec a b).2.mp ⟨err, h2⟩
      simp [hf]
    | ok bb =>
      have hne : fmtCompatible a.output_format b.accepts_formats ≠ false := by
        intro hf
        obtain ⟨err, herr⟩ := (validate_t2t_spec a b).2.mpr hf
        rw [h2] at herr
        exact Except.noConfusion herr
      have ht : fmtCompatible a.output_format b.accepts_formats = true :=
        Bool.eq_true_of_not_eq_false hne
      simp [ht, ih]

theorem validate_components_list_ok (ts : List CInst)
    (h : ts.all componentOkGeneric = true) :
    WorkflowValidator.validate_components_list ts = .ok true := by
  induction ts with
  | nil => rfl
  | cons t ts ih =>
    rw [List.all_cons, Bool.and_eq_true] at h
    obtain ⟨h1, h2⟩ := h
    have hne : (t.name == "") = false := by
      unfold componentOkGeneric at h1
      simpa using h1
    simp [WorkflowValidator.validate_components_list,
      WorkflowValidator.validate_component_transformer, hne, ih h2]

/-- Claim C5: with the pipeline's components individually valid,
`validate_pipeline` succeeds precisely when every adjacent stage pair is
format-compatible (a pair being incompatible exactly when the consumer
declares `accepts_formats`, the producer declares `output_format` and
the output format is not accepted; undeclared attributes make a pair
compatible); when some adjacent pair is incompatible, it raises
`ValidationError`.  Non-adjacent stages never enter the comparison. -/
theorem C5_validate_pipeline_format_compatibility (p : RPipeline) (ex t0 : CInst)
    (rest : List CInst) (hex : p.extractor = some ex) (hts : p.transformers = t0 :: rest)
    (hcomp : componentsOk ex (t0 :: rest) p.loader = true) :
    (WorkflowValidator.validate_pipeline p = .ok true ↔
      adjacentCompatible ex t0 rest p.loader = true) ∧
    (adjacentCompatible ex t0 rest p.loader = false →
      ∃ err, WorkflowValidator.validate_pipeline p = .error err) := by
  unfold componentsOk at hcomp
  rw [Bool.and_eq_true, Bool.and_eq_true] at hcomp
  obtain ⟨⟨hce, hcts⟩, hcl⟩ := hcomp
  have h1 : WorkflowValidator.validate_component_extractor ex = .ok true := by
    unfold componentOkExtractor at hce
    rw [Bool.and_eq_true] at hce
    obtain ⟨hn, hs⟩ := hce
    have hne : (ex.name == "") = false := by simpa using hn
    simp [WorkflowValidator.validate_component_extractor,
      WorkflowValidator.validate_extractor, hne, hs]
  have h2 : WorkflowValidator.validate_components_list (t0 :: rest) = .ok true :=
    validate_components_list_ok _ hcts
  have h3 : (match p.loader with
             | some l => WorkflowValidator.validate_component_loader l
             | none => (.ok true : Except VErr Bool)) = .ok true := by
    cases hld : p.loader with
    | none => rfl
    | some l =>
      rw [hld] at hcl
      have hne : (l.name == "") = false := by
        unfold componentOkGeneric at hcl
        simpa using hcl
      simp [WorkflowValidator.validate_component_loader, hne]
  unfold WorkflowValidator.validate_pipeline
  rw [hex, hts]
  simp only [h1, h2, h3]
  by_cases hc1 : fmtCompatible ex.output_format t0.accepts_formats = true
  · have he2t := (validate_e2t_spec ex t0).1.mpr hc1
    simp only [he2t]
    by_cases hc2 : pairsCompatible t0 rest = true
    · have hcons := (validate_consecutive_spec t0 rest).1.mpr hc2
      simp only [hcons]
      cases hld : p.loader with
      | none => simp [adjacentCompatible, hc1, hc2]
      | some l =>
        by_cases hc3 : fmtCompatible (lastOf t0 rest).output_format l.accepts_formats = true
        · have ht2l := (validate_t2l_spec (lastOf t0 rest) l).1.mpr hc3
          simp [ht2l, adjacentCompatible, hc1, hc2, hc3]
        · rw [Bool.not_eq_true] at hc3
          obtain ⟨err, herr⟩ := (validate_t2l_spec (lastOf t0 rest) l).2.mpr hc3
          simp [herr, adjacentCompatible, hc1, hc2, hc3]
    · rw [Bool.not_eq_true] at hc2
      obtain ⟨err, herr⟩ := (validate_consecutive_spec t0 rest).2.mpr hc2
      simp [herr, adjacentCompatible, hc2]
  · rw [Bool.not_eq_true] at hc1
    obtain ⟨err, herr⟩ := (validate_e2t_spec ex t0).2.mpr hc1
    simp [herr, adjacentCompatible, hc1]

/-- Extractor instance used in the concrete validator evaluations. -/
def vEx : CInst := ⟨"csv_ex", "CsvExtractor", [], some "data.csv", some "list_of_dicts", none⟩

/-- Transformer instance used in the concrete validator evaluations. -/
def vT1 : CInst := ⟨"filter_t", "FilterTransformer", [], none, some "dict", some ["list_of_dicts"]⟩

/-- Loader instance used in the concrete validator evaluations. -/
def vL1 : CInst := ⟨"db_loader", "DatabaseLoader", [], none, none, some ["dict"]⟩

/-- Pipeline used in the concrete validator evaluations. -/
def vPipe : RPipeline := ⟨"vpipe", some vEx, [vT1], some vL1, []⟩

/-- Concrete instantiation of the format-compatibility claim. -/
theorem C5_validate_pipeline_format_compatibility_witness :
    (WorkflowValidator.validate_pipeline vPipe = .ok true ↔
      adjacentCompatible vEx vT1 [] (some vL1) = true) ∧
    (adjacentCompatible vEx vT1 [] (some vL1) = false →
      ∃ err, WorkflowValidator.validate_pipeline vPipe = .error err) :=
  C5_validate_pipeline_format_compatibility vPipe vEx vT1 [] rfl rfl (by decide)

/-- Extractor with a valid source, used in the zero-transformer pipeline. -/
def zEx : CInst := ⟨"csv_ex0", "CsvExtractor", [], some "data.csv", none, none⟩

/-- A pipeline built with one extractor, zero transformers and no loader;
`Pipeline.__init__` permits this (transformers defaults to `[]`). -/
def zPipe : RPipeline := Pipeline.init "zero_t" (some zEx) none none none

/-- Claim C2 counterexample: a pipeline with one individually-valid
extractor and zero transformers is *rejected* by `validate_pipeline`
with `ValidationError`, contradicting the claim that it is accepted. -/
theorem C2_counterexample_zero_transformers :
    componentOkExtractor zEx = true ∧
    zPipe.transformers = [] ∧
    WorkflowValidator.validate_pipeline zPipe =
      .error (.pipelineMustHaveTransformer "zero_t") :=
  ⟨rfl, rfl, rfl⟩

/-- Claim C2 (amended): a pipeline with one extractor and zero
transformers can be *constructed* (`Pipeline.__init__` defaults the
transformer list to empty), but `validate_pipeline` always rejects it
with `ValidationError`, because it requires at least one transformer. -/
theorem C2_zero_transformer_pipeline_rejected :
    (∀ (name : String) (ex : Option CInst) (ld : Option CInst)
        (cfg : Option (List (String × String))),
        (Pipeline.init name ex none ld cfg).transformers = []) ∧
    (∀ (p : RPipeline) (ex : CInst), p.extractor = some ex → p.transformers = [] →
        WorkflowValidator.validate_pipeline p =
          .error (.pipelineMustHaveTransformer p.name)) := by
  constructor
  · intro name ex ld cfg; rfl
  · intro p ex hex hts
    unfold WorkflowValidator.validate_pipeline
    rw [hex, hts]

/-- Concrete instantiation of the amended zero-transformer claim. -/
theorem C2_zero_transformer_pipeline_rejected_witness :
    (Pipeline.init "zero_t" (some zEx) none none none).transformers = [] ∧
    WorkflowValidator.validate_pipeline zPipe =
      .error (.pipelineMustHaveTransformer "zero_t") :=
  ⟨C2_zero_transformer_pipeline_rejected.1 "zero_t" (some zEx) none none,
   C2_zero_transformer_pipeline_rejected.2 zPipe zEx rfl rfl⟩

/-- A named component definition in a template's top-level
`extractors` / `transformers` / `loaders` sections (templates.py
component schemas: required `name` and `type`, optional `config`). -/
structure CompDef where
  name : String
  type : String
  config : List (String × String)
deriving Repr, DecidableEq

/-- A component reference inside a pipeline definition: a plain string
(resolved by name), an inline definition (a dict), or Python `None`
(possible for the `loader` key, e.g. in generator output). -/
inductive CompRef where
  | ref (name : String)
  | inline (d : CompDef)
  | nullv
deriving Repr, DecidableEq

/-- A pipeline entry of a workflow template (templates.py
`PIPELINE_SCHEMA`): `loader = none` means the key is absent,
`some .nullv` means the key is present with value `null`. -/
structure PipelineTemplate where
  name : String
  description : String
  extractor : CompRef
  transformers : List CompRef
  loader : Option CompRef
  config : List (String × String)
  metadata : List (String × String)
deriving Repr, DecidableEq

/-- A workflow template document (templates.py `WORKFLOW_SCHEMA` plus the
`name` key the generator emits; extra keys are allowed by the schema). -/
structure WorkflowTemplate where
  name : String
  version : String
  description : String
  extractors : List CompDef
  transformers : List CompDef
  loaders : List CompDef
  pipelines : List PipelineTemplate
deriving Repr, DecidableEq

/-- Errors raised by `resolve_references` (ValidationError per undefined
reference kind). -/
inductive TErr where
  | undefinedExtractorRef (name : String)
  | undefinedTransformerRef (name : String)
  | undefinedLoaderRef (name : String)
deriving Repr, DecidableEq

/-- The name-lookup dict `{e["name"]: e for e in section}` built at
templates.py lines 178-180: with duplicate names the later entry wins,
as in a Python dict comprehension. -/
def sectionIndex (sec : List CompDef) (n : String) : Option CompDef :=
  sec.reverse.find? (fun d => d.name == n)

/-- Resolution of a pipeline's `extractor` field (templates.py lines
184-189): only a string reference is looked up; anything else is left
unchanged. -/
def resolveExtractorRef (exs : List CompDef) : CompRef → Except TErr CompRef
  | .ref n =>
    match sectionIndex exs n with
    | some d => .ok (.inline d)
    | none => .error (.undefinedExtractorRef n)
  | x => .ok x

/-- Resolution of one entry of a pipeline's `transformers` list
(templates.py lines 192-200). -/
def resolveOneTransformer (trs : List CompDef) : CompRef → Except TErr CompRef
  | .ref n =>
    match sectionIndex trs n with
    | some d => .ok (.inline d)
    | none => .error (.undefinedTransformerRef n)
  | x => .ok x

/-- The transformer-resolution loop (templates.py lines 192-201),
stopping at the first undefined reference. -/
def resolveTransformerRefs (trs : List CompDef) : List CompRef → Except TErr (List CompRef)
  | [] => .ok []
  | r :: rest =>
    match resolveOneTransformer trs r with
    | .error e => .error e
    | .ok r' =>
      match resolveTransformerRefs trs rest with
      | .error e => .error e
      | .ok rest' => .ok (r' :: rest')

/-- Resolution of the `loader` key (templates.py lines 203-208): only
when the key is present *and* holds a string. -/
def resolveLoaderRef (lds : List CompDef) : Option CompRef → Except TErr (Option CompRef)
  | some (.ref n) =>
    match sectionIndex lds n with
    | some d => .ok (some (.inline d))
    | none => .error (.undefinedLoaderRef n)
  | x => .ok x

/-- Resolution of one pipeline dict, in the source's order: extractor,
then transformers, then loader (templates.py lines 183-208). -/
def resolvePipeline (exs trs lds : List CompDef) (p : PipelineTemplate) :
    Except TErr PipelineTemplate :=
  match resolveExtractorRef exs p.extractor with
  | .error e => .error e
  | .ok e' =>
    match resolveTransformerRefs trs p.transformers with
    | .error e => .error e
    | .ok ts' =>
      match resolveLoaderRef lds p.loader with
      | .error e => .error e
      | .ok l' => .ok { p with extractor := e', transformers := ts', loader := l' }

/-- The `for pipeline in result.get("pipelines", [])` loop. -/
def resolvePipelines (exs trs lds : List CompDef) :
    List PipelineTemplate → Except TErr (List PipelineTemplate)
  | [] => .ok []
  | p :: ps =>
    match resolvePipeline exs trs lds p with
    | .error e => .error e
    | .ok p' =>
      match resolvePipelines exs trs lds ps with
      | .error e => .error e
      | .ok ps' => .ok (p' :: ps')

/-- `TemplateParser.resolve_references` (templates.py lines 159-210):
resolve every pipeline against the template's own top-level sections. -/
def TemplateParser.resolve_references (t : WorkflowTemplate) : Except TErr WorkflowTemplate :=
  match resolvePipelines t.extractors t.transformers t.loaders t.pipelines with
  | .error e => .error e
  | .ok ps => .ok { t with pipelines := ps }

/-- `resolve_references` together with the post-call state of its
ARGUMENT.  `result = template.copy()` (templates.py line 175) is a
*shallow* copy: `result["pipelines"]` is the very list object of the
argument, and each pipeline dict in it is mutated in place (lines
185-208); hence on success the argument's own `pipelines` entries equal
the resolved ones, while its other top-level fields are untouched. -/
def TemplateParser.resolve_references_with_input (t : WorkflowTemplate) :
    Except TErr (WorkflowTemplate × WorkflowTemplate) :=
  match resolvePipelines t.extractors t.transformers t.loaders t.pipelines with
  | .error e => .error e
  | .ok ps => .ok ({ t with pipelines := ps }, { t with pipelines := ps })

/-- Declarative resolvability of one reference: a string reference must
have a top-level definition; non-strings are always fine. -/
def refResolvable (sec : List CompDef) : CompRef → Bool
  | .ref n => (sectionIndex sec n).isSome
  | _ => true

/-- Declarative resolution of one reference: replace a resolvable string
reference with the definition of the same name, leave everything else
unchanged. -/
def refResolveSpec (sec : List CompDef) : CompRef → CompRef
  | .ref n =>
    match sectionIndex sec n with
    | some d => .inline d
    | none => .ref n
  | x => x

/-- Declarative resolvability of a whole pipeline entry. -/
def pipelineResolvable (exs trs lds : List CompDef) (p : PipelineTemplate) : Bool :=
  refResolvable exs p.extractor && p.transformers.all (refResolvable trs) &&
  (match p.loader with | some r => refResolvable lds r | none => true)

/-- Declarative resolution of a whole pipeline entry. -/
def pipelineResolveSpec (exs trs lds : List CompDef) (p : PipelineTemplate) :
    PipelineTemplate :=
  { p with extractor := refResolveSpec exs p.extractor,
           transformers := p.transformers.map (refResolveSpec trs),
           loader := p.loader.map (refResolveSpec lds) }

/-- Declarative resolvability of a whole template. -/
def templateResolvable (t : WorkflowTemplate) : Bool :=
  t.pipelines.all (pipelineResolvable t.extractors t.transformers t.loaders)

/-- Declarative resolution of a whole template. -/
def templateResolveSpec (t : WorkflowTemplate) : WorkflowTemplate :=
  { t with pipelines :=
      t.pipelines.map (pipelineResolveSpec t.extractors t.transformers t.loaders) }

theorem resolveExtractorRef_spec (exs : List CompDef) (r : CompRef) :
    (∀ r', resolveExtractorRef exs r = .ok r' ↔
      (refResolvable exs r = true ∧ r' = refResolveSpec exs r)) ∧
    (refResolvable exs r = false → ∃ e, resolveExtractorRef exs r = .error e) := by
  cases r with
  | ref n =>
    cases hd : sectionIndex exs n with
    | some d => simp [resolveExtractorRef, refResolvable, refResolveSpec, hd, eq_comm]
    | none => simp [resolveExtractorRef, refResolvable, refResolveSpec, hd]
  | inline d => simp [resolveExtractorRef, refResolvable, refResolveSpec, eq_comm]
  | nullv => simp [resolveExtractorRef, refResolvable, refResolveSpec, eq_comm]

theorem resolveOneTransformer_spec (trs : List CompDef) (r : CompRef) :
    (∀ r', resolveOneTransformer trs r = .ok r' ↔
      (refResolvable trs r = true ∧ r' = refResolveSpec trs r)) ∧
    (refResolvable trs r = false → ∃ e, resolveOneTransformer trs r = .error e) := by
  cases r with
  | ref n =>
    cases hd : sectionIndex trs n with
    | some d => simp [resolveOneTransformer, refResolvable, refResolveSpec, hd, eq_comm]
    | none => simp [resolveOneTransformer, refResolvable, refResolveSpec, hd]
  | inline d => simp [resolveOneTransformer, refResolvable, refResolveSpec, eq_comm]
  | nullv => simp [resolveOneTransformer, refResolvable, refResolveSpec, eq_comm]

theorem resolveLoaderRef_spec (lds : List CompDef) (o : Option CompRef) :
    (∀ o', resolveLoaderRef lds o = .ok o' ↔
      ((match o with | some r => refResolvable lds r | none => true) = true ∧
        o' = o.map (refResolveSpec lds))) ∧
    ((match o with | some r => refResolvable lds r | none => true) = false →
      ∃ e, resolveLoaderRef lds o = .error e) := by
  cases o with
  | none => simp [resolveLoaderRef, eq_comm]
  | some r =>
    cases r with
    | ref n =>
      cases hd : sectionIndex lds n with
      | some d => simp [resolveLoaderRef, refResolvable, refResolveSpec, hd, eq_comm]
      | none => simp [resolveLoaderRef, refResolvable, refResolveSpec, hd]
    | inline d => simp [resolveLoaderRef, refResolvable, refResolveSpec, eq_comm]
    | nullv => simp [resolveLoaderRef, refResolvable, refResolveSpec, eq_comm]

theorem resolveTransformerRefs_spec (trs : List CompDef) (l : List CompRef) :
    (∀ l', resolveTransformerRefs trs l = .ok l' ↔
      (l.all (refResolvable trs) = true ∧ l' = l.map (refResolveSpec trs))) ∧
    (l.all (refResolvable trs) = false →
      ∃ e, resolveTransformerRefs trs l = .error e) := by
  induction l with
  | nil => simp [resolveTransformerRefs]
  | cons r rest ih =>
    by_cases hr : refResolvable trs r = true
    · have hok : resolveOneTransformer trs r = .ok (refResolveSpec trs r) :=
        ((resolveOneTransformer_spec trs r).1 _).mpr ⟨hr, rfl⟩
      constructor
      · intro l'
        simp only [resolveTransformerRefs, hok, List.all_cons, List.map_cons, hr,
          Bool.true_and]
        cases hrest : resolveTransformerRefs trs rest with
        | error e =>
          have hfalse : rest.all (refResolvable trs) = false := by
            by_contra hh
            rw [Bool.not_eq_false] at hh
            have hv := (ih.1 (rest.map (refResolveSpec trs))).mpr ⟨hh, rfl⟩
            rw [hrest] at hv
            exact Except.noConfusion hv
          simp [hfalse]
        | ok rest' =>
          obtain ⟨hall, hmap⟩ := (ih.1 rest').mp hrest
          subst hmap
          simp [hall, eq_comm]
      · intro hfalse
        rw [List.all_cons, hr, Bool.true_and] at hfalse
        obtain ⟨e, he⟩ := ih.2 hfalse
        exact ⟨e, by simp [resolveTransformerRefs, hok, he]⟩
    · rw [Bool.not_eq_true] at hr
      obtain ⟨e, he⟩ := (resolveOneTransformer_spec trs r).2 hr
      constructor
      · intro l'
        simp [resolveTransformerRefs, he, List.all_cons, hr]
      · intro _
        exact ⟨e, by simp [resolveTransformerRefs, he]⟩

theorem resolvePipeline_spec (exs trs lds : List CompDef) (p : PipelineTemplate) :
    (∀ p', resolvePipeline exs trs lds p = .ok p' ↔
      (pipelineResolvable exs trs lds p = true ∧
        p' = pipelineResolveSpec exs trs lds p)) ∧
    (pipelineResolvable exs trs lds p = false →
      ∃ e, resolvePipeline exs trs lds p = .error e) := by
  by_cases h1 : refResolvable exs p.extractor = true
  · have hok1 : resolveExtractorRef exs p.extractor = .ok (refResolveSpec exs p.extractor) :=
      ((resolveExtractorRef_spec exs p.extractor).1 _).mpr ⟨h1, rfl⟩
    by_cases h2 : p.transformers.all (refResolvable trs) = true
    · have hok2 : resolveTransformerRefs trs p.transformers =
          .ok (p.transformers.map (refResolveSpec trs)) :=
        ((resolveTransformerRefs_spec trs p.transformers).1 _).mpr ⟨h2, rfl⟩
      by_cases h3 : (match p.loader with
                     | some r => refResolvable lds r | none => true) = true
      · have hok3 : resolveLoaderRef lds p.loader = .ok (p.loader.map (refResolveSpec lds)) :=
          ((resolveLoaderRef_spec lds p.loader).1 _).mpr ⟨h3, rfl⟩
        constructor
        · intro p'
          simp [resolvePipeline, hok1, hok2, hok3, pipelineResolvable, h1, h2, h3,
            pipelineResolveSpec, eq_comm]
        · intro hfalse
          simp [pipelineResolvable, h1, h2, h3] at hfalse
      · rw [Bool.not_eq_true] at h3
        obtain ⟨e, he⟩ := (resolveLoaderRef_spec lds p.loader).2 h3
        constructor
        · intro p'
          simp [resolvePipeline, hok1, hok2, he, pipelineResolvable, h3]
        · intro _
          exact ⟨e, by simp [resolvePipeline, hok1, hok2, he]⟩
    · rw [Bool.not_eq_true] at h2
      obtain ⟨e, he⟩ := (resolveTransformerRefs_spec trs p.transformers).2 h2
      constructor
      · intro p'
        simp [resolvePipeline, hok1, he, pipelineResolvable, h2]
      · intro _
        exact ⟨e, by simp [resolvePipeline, hok1, he]⟩
  · rw [Bool.not_eq_true] at h1
    obtain ⟨e, he⟩ := (resolveExtractorRef_spec exs p.extractor).2 h1
    constructor
    · intro p'
      simp [resolvePipeline, he, pipelineResolvable, h1]
    · intro _
      exact ⟨e, by simp [resolvePipeline, he]⟩

theorem resolvePipelines_spec (exs trs lds : List CompDef) (ps : List PipelineTemplate) :
    (∀ ps', resolvePipelines exs trs lds ps = .ok ps' ↔
      (ps.all (pipelineResolvable exs trs lds) = true ∧
        ps' = ps.map (pipelineResolveSpec exs trs lds))) ∧
    (ps.all (pipelineResolvable exs trs lds) = false →
      ∃ e, resolvePipelines exs trs lds ps = .error e) := by
  induction ps with
  | nil => simp [resolvePipelines]
  | cons p ps ih =>
    by_cases hp : pipelineResolvable exs trs lds p = true
    · have hok : resolvePipeline exs trs lds p = .ok (pipelineResolveSpec exs trs lds p) :=
        ((resolvePipeline_spec exs trs lds p).1 _).mpr ⟨hp, rfl⟩
      constructor
      · intro ps'
        simp only [resolvePipelines, hok, List.all_cons, List.map_cons, hp, Bool.true_and]
        cases hrest : resolvePipelines exs trs lds ps with
        | error e =>
          have hfalse : ps.all (pipelineResolvable exs trs lds) = false := by
            by_contra hh
            rw [Bool.not_eq_false] at hh
            have hv := (ih.1 (ps.map (pipelineResolveSpec exs trs lds))).mpr ⟨hh, rfl⟩
            rw [hrest] at hv
            exact Except.noConfusion hv
          simp [hfalse]
        | ok rest' =>
          obtain ⟨hall, hmap⟩ := (ih.1 rest').mp hrest
          subst hmap
          simp [hall, eq_comm]
      · intro hfalse
        rw [List.all_cons, hp, Bool.true_and] at hfalse
        obtain ⟨e, he⟩ := ih.2 hfalse
        exact ⟨e, by simp [resolvePipelines, hok, he]⟩
    · rw [Bool.not_eq_true] at hp
      obtain ⟨e, he⟩ := (resolvePipeline_spec exs trs lds p).2 hp
      constructor
      · intro ps'
        simp [resolvePipelines, he, List.all_cons, hp]
      · intro _
        exact ⟨e, by simp [resolvePipelines, he]⟩

/-- Claim C4: `resolve_references` succeeds exactly when every string
reference inside every pipeline (extractor, each transformer entry, and
the loader when present) names a component defined in the template's
corresponding top-level section; on success it replaces exactly those
string references with the full definitions of the same name and leaves
non-string entries unchanged; otherwise it raises `ValidationError`. -/
theorem C4_resolve_references_characterisation (t : WorkflowTemplate) :
    (∀ t', TemplateParser.resolve_references t = .ok t' ↔
      (templateResolvable t = true ∧ t' = templateResolveSpec t)) ∧
    (templateResolvable t = false →
      ∃ e, TemplateParser.resolve_references t = .error e) := by
  constructor
  · intro t'
    unfold TemplateParser.resolve_references templateResolvable templateResolveSpec
    cases hrp : resolvePipelines t.extractors t.transformers t.loaders t.pipelines with
    | error e =>
      constructor
      · intro h; exact absurd h (by simp)
      · rintro ⟨hall, _⟩
        have hv := ((resolvePipelines_spec t.extractors t.transformers t.loaders
          t.pipelines).1 _).mpr ⟨hall, rfl⟩
        rw [hrp] at hv
        exact Except.noConfusion hv
    | ok ps =>
      obtain ⟨hall, hmap⟩ := ((resolvePipelines_spec t.extractors t.transformers t.loaders
        t.pipelines).1 ps).mp hrp
      subst hmap
      simp [hall, eq_comm]
  · intro hfalse
    unfold templateResolvable at hfalse
    obtain ⟨e, he⟩ := (resolvePipelines_spec t.extractors t.transformers t.loaders
      t.pipelines).2 hfalse
    exact ⟨e, by simp [TemplateParser.resolve_references, he]⟩

/-- Extractor definition for concrete template evaluations. -/
def tplExDef : CompDef := ⟨"csv_extractor", "CsvExtractor", [("file_path", "d.csv")]⟩

/-- Transformer definition for concrete template evaluations. -/
def tplTrDef : CompDef := ⟨"filter_transformer", "FilterTransformer", []⟩

/-- Loader definition for concrete template evaluations. -/
def tplLdDef : CompDef := ⟨"database_loader", "DatabaseLoader", []⟩

/-- A pipeline entry referencing all three components by name. -/
def tplPipe : PipelineTemplate :=
  ⟨"example_pipeline", "", .ref "csv_extractor", [.ref "filter_transformer"],
   some (.ref "database_loader"), [], []⟩

/-- A template in which every reference is defined. -/
def tGood : WorkflowTemplate :=
  ⟨"wf", "1.0.0", "", [tplExDef], [tplTrDef], [tplLdDef], [tplPipe]⟩

/-- A template whose pipeline references an undefined transformer. -/
def tBad : WorkflowTemplate :=
  ⟨"wf", "1.0.0", "", [tplExDef], [], [tplLdDef],
   [⟨"example_pipeline", "", .ref "csv_extractor", [.ref "missing_transformer"],
     some (.ref "database_loader"), [], []⟩]⟩

/-- Concrete instantiation of the reference-resolution claim. -/
theorem C4_resolve_references_characterisation_witness :
    TemplateParser.resolve_references tGood = .ok (templateResolveSpec tGood) ∧
    (∃ e, TemplateParser.resolve_references tBad = .error e) :=
  ⟨((C4_resolve_references_characterisation tGood).1 (templateResolveSpec tGood)).mpr
      ⟨by decide, rfl⟩,
   (C4_resolve_references_characterisation tBad).2 (by decide)⟩

/-- Whether a reference is a plain string (Python `isinstance(x, str)`). -/
def isRefB : CompRef → Bool
  | .ref _ => true
  | _ => false

/-- Whether a pipeline entry contains any string reference. -/
def pipelineHasRef (p : PipelineTemplate) : Bool :=
  isRefB p.extractor || p.transformers.any isRefB ||
  (match p.loader with | some r => isRefB r | none => false)

/-- Whether a template contains any string reference in its pipelines. -/
def templateHasRef (t : WorkflowTemplate) : Bool := t.pipelines.any pipelineHasRef

theorem list_map_eq_self {β : Type} (f : β → β) (l : List β) (h : l.map f = l) :
    ∀ x ∈ l, f x = x := by
  induction l with
  | nil => intro x hx; exact absurd hx (List.not_mem_nil x)
  | cons a l ih =>
    rw [List.map_cons] at h
    injection h with h1 h2
    intro x hx
    rcases List.mem_cons.mp hx with rfl | hx'
    · exact h1
    · exact ih h2 x hx'

theorem refResolveSpec_ne_ref (sec : List CompDef) (n : String)
    (h : refResolvable sec (.ref n) = true) : refResolveSpec sec (.ref n) ≠ .ref n := by
  simp only [refResolvable] at h
  obtain ⟨d, hd⟩ := Option.isSome_iff_exists.mp h
  simp only [refResolveSpec, hd]
  simp

theorem pipelineResolveSpec_ne (exs trs lds : List CompDef) (p : PipelineTemplate)
    (hres : pipelineResolvable exs trs lds p = true)
    (href : pipelineHasRef p = true) :
    pipelineResolveSpec exs trs lds p ≠ p := by
  intro heq
  have hext := congrArg PipelineTemplate.extractor heq
  have htrs := congrArg PipelineTemplate.transformers heq
  have hld := congrArg PipelineTemplate.loader heq
  simp only [pipelineResolveSpec] at hext htrs hld
  unfold pipelineResolvable at hres
  rw [Bool.and_eq_true, Bool.and_eq_true] at hres
  obtain ⟨⟨hre, hrt⟩, hrl⟩ := hres
  unfold pipelineHasRef at href
  rw [Bool.or_eq_true, Bool.or_eq_true] at href
  rcases href with (he | ht) | hl
  · obtain ⟨n, hn⟩ : ∃ n, p.extractor = .ref n := by
      cases hcase : p.extractor <;> simp [isRefB, hcase] at he ⊢
    rw [hn] at hext hre
    exact refResolveSpec_ne_ref exs n hre hext
  · obtain ⟨r, hr, hrref⟩ := List.any_eq_true.mp ht
    have hfix := list_map_eq_self _ _ htrs r hr
    obtain ⟨n, hn⟩ : ∃ n, r = .ref n := by
      cases hcase : r <;> simp [isRefB, hcase] at hrref ⊢
    rw [hn] at hfix hr
    have hrres : refResolvable trs (.ref n) = true :=
      List.all_eq_true.mp hrt _ hr
    exact refResolveSpec_ne_ref trs n hrres hfix
  · obtain ⟨n, hn⟩ : ∃ n, p.loader = some (.ref n) := by
      cases hcase : p.loader with
      | none => rw [hcase] at hl; exact absurd hl (by simp)
      | some r => cases hcr : r <;> simp [isRefB, hcase, hcr] at hl ⊢
    have hrl' : refResolvable lds (.ref n) = true := by rw [hn] at hrl; exact hrl
    rw [hn] at hld
    rw [Option.map_some'] at hld
    injection hld with hld'
    exact refResolveSpec_ne_ref lds n hrl' hld'

/-- Claim C10: `resolve_references` mutates its argument.  Because the
copy at templates.py line 175 is shallow, a successful call leaves the
argument template's own pipeline entries equal to the resolved result;
whenever the input contained any string reference, the input template is
not left unchanged. -/
theorem C10_resolve_references_mutates_input (t res post : WorkflowTemplate)
    (h : TemplateParser.resolve_references_with_input t = .ok (res, post))
    (href : templateHasRef t = true) :
    post = res ∧ post ≠ t := by
  unfold TemplateParser.resolve_references_with_input at h
  cases hrp : resolvePipelines t.extractors t.transformers t.loaders t.pipelines with
  | error e =>
    rw [hrp] at h
    exact Except.noConfusion h
  | ok ps =>
    rw [hrp] at h
    injection h with h'
    injection h' with hres hpost
    subst hres
    subst hpost
    refine ⟨rfl, ?_⟩
    obtain ⟨hall, hmap⟩ := ((resolvePipelines_spec t.extractors t.transformers t.loaders
      t.pipelines).1 ps).mp hrp
    subst hmap
    intro heq
    have hpl := congrArg WorkflowTemplate.pipelines heq
    unfold templateHasRef at href
    obtain ⟨p, hp, hpref⟩ := List.any_eq_true.mp href
    have hpeq := list_map_eq_self _ _ hpl p hp
    have hpres : pipelineResolvable t.extractors t.transformers t.loaders p = true :=
      List.all_eq_true.mp hall p hp
    exact pipelineResolveSpec_ne _ _ _ p hpres hpref hpeq

/-- Concrete instantiation of the mutation claim: resolving `tGood`
mutates the argument to the resolved template, which differs from the
original. -/
theorem C10_resolve_references_mutates_input_witness :
    templateResolveSpec tGood = templateResolveSpec tGood ∧
    templateResolveSpec tGood ≠ tGood :=
  C10_resolve_references_mutates_input tGood (templateResolveSpec tGood)
    (templateResolveSpec tGood) rfl (by decide)

/-- A Python class object as `inspect` and `discovery.py` see it: `cid`
is the object identity (for `obj is base_class`), `name` is `__name__`,
`moduleName` is `__module__`, and `ancestors` are the identities of all
classes `issubclass` would accept (including the class itself, since
`issubclass` is reflexive). -/
structure PyClass where
  cid : Nat
  name : String
  moduleName : String
  ancestors : List Nat
deriving Repr, DecidableEq

/-- A module member as `inspect.getmembers(module)` yields it: a class,
or any non-class object (function, instance, constant). -/
inductive PyMember where
  | cls (c : PyClass)
  | nonClass (objId : Nat)
deriving Repr, DecidableEq

/-- A Python module: its `__name__` and its members.  (`discover_modules`
and `import_module` walk the filesystem and the import machinery; a
package is abstracted as the list of modules they would yield.) -/
structure PyModule where
  name : String
  members : List PyMember
deriving Repr, DecidableEq

/-- `issubclass(obj, base_class)`. -/
def isSubclass (c base : PyClass) : Bool := c.ancestors.contains base.cid

/-- `inspect.getmembers(module, inspect.isclass)`: only the class
members, in order. -/
def getClassMembers (m : PyModule) : List PyClass :=
  m.members.filterMap (fun mem => match mem with | .cls c => some c | .nonClass _ => none)

/-- `discover_component_classes` (discovery.py lines 112-136): keep the
members that are classes, are subclasses of `base`, are defined in this
module (`obj.__module__ == module.__name__`), and — unless
`exclude_base` is false — are not the base class itself. -/
def discover_component_classes (m : PyModule) (base : PyClass) (exclude_base : Bool) :
    List PyClass :=
  (getClassMembers m).filter (fun c =>
    isSubclass c base && (c.moduleName == m.name) && (!exclude_base || !(c.cid == base.cid)))

/-- `discover_extractors` (discovery.py lines 139-155): accumulate
`discover_component_classes(module, BaseExtractor)` over the package's
modules (`exclude_base` keeps its default `True`). -/
def discover_extractors (pkg : List PyModule) (baseExtractor : PyClass) : List PyClass :=
  pkg.foldl (fun acc m => acc ++ discover_component_classes m baseExtractor true) []

/-- `discover_transformers` (discovery.py lines 158-174). -/
def discover_transformers (pkg : List PyModule) (baseTransformer : PyClass) : List PyClass :=
  pkg.foldl (fun acc m => acc ++ discover_component_classes m baseTransformer true) []

/-- `discover_loaders` (discovery.py lines 177-193). -/
def discover_loaders (pkg : List PyModule) (baseLoader : PyClass) : List PyClass :=
  pkg.foldl (fun acc m => acc ++ discover_component_classes m baseLoader true) []

theorem mem_getClassMembers (m : PyModule) (c : PyClass) :
    c ∈ getClassMembers m ↔ PyMember.cls c ∈ m.members := by
  unfold getClassMembers
  rw [List.mem_filterMap]
  constructor
  · rintro ⟨mem, hmem, hf⟩
    cases mem with
    | cls c' =>
      simp only [Option.some.injEq] at hf
      rw [← hf]
      exact hmem
    | nonClass o => exact Option.noConfusion hf
  · intro h
    exact ⟨PyMember.cls c, h, rfl⟩

theorem mem_discover_component_classes (m : PyModule) (base : PyClass) (c : PyClass) :
    c ∈ discover_component_classes m base true ↔
      (PyMember.cls c ∈ m.members ∧ isSubclass c base = true ∧
        c.moduleName = m.name ∧ c.cid ≠ base.cid) := by
  unfold discover_component_classes
  rw [List.mem_filter, mem_getClassMembers]
  simp [and_assoc]

theorem mem_foldl_append {β γ : Type} (f : γ → List β) (c : β) :
    ∀ (pkg : List γ) (acc : List β),
      c ∈ pkg.foldl (fun acc m => acc ++ f m) acc ↔ c ∈ acc ∨ ∃ m ∈ pkg, c ∈ f m := by
  intro pkg
  induction pkg with
  | nil => intro acc; simp
  | cons m pkg ih =>
    intro acc
    rw [List.foldl_cons, ih]
    simp [List.mem_append, List.mem_cons, or_assoc, exists_eq_or_imp]

/-- Claim C6: discovery returns classes, not instances.  The result of
`discover_component_classes` consists exactly of the class members of
the module that subclass the requested base, are defined in the module
itself (imported classes are excluded via `__module__`), and are not
the base class; every element arises from a class member, never a
non-class object; and the per-role wrappers collect exactly these
classes across the package's modules. -/
theorem C6_discovery_returns_defined_subclasses :
    (∀ (m : PyModule) (base c : PyClass),
        c ∈ discover_component_classes m base true ↔
          (PyMember.cls c ∈ m.members ∧ isSubclass c base = true ∧
            c.moduleName = m.name ∧ c.cid ≠ base.cid)) ∧
    (∀ (m : PyModule) (base c : PyClass),
        c ∈ discover_component_classes m base true → PyMember.cls c ∈ m.members) ∧
    (∀ (pkg : List PyModule) (base c : PyClass),
        c ∈ discover_extractors pkg base ↔
          ∃ m ∈ pkg, c ∈ discover_component_classes m base true) ∧
    (∀ (pkg : List PyModule) (base c : PyClass),
        c ∈ discover_transformers pkg base ↔
          ∃ m ∈ pkg, c ∈ discover_component_classes m base true) ∧
    (∀ (pkg : List PyModule) (base c : PyClass),
        c ∈ discover_loaders pkg base ↔
          ∃ m ∈ pkg, c ∈ discover_component_classes m base true) := by
  refine ⟨mem_discover_component_classes, ?_, ?_, ?_, ?_⟩
  · intro m base c hc
    exact ((mem_discover_component_classes m base c).mp hc).1
  · intro pkg base c
    unfold discover_extractors
    rw [mem_foldl_append]
    simp
  · intro pkg base c
    unfold discover_transformers
    rw [mem_foldl_append]
    simp
  · intro pkg base c
    unfold discover_loaders
    rw [mem_foldl_append]
    simp

/-- The abstract `BaseExtractor` class object. -/
def baseExtractorCls : PyClass := ⟨0, "BaseExtractor", "workflows.base", [0]⟩

/-- A concrete extractor subclass defined in its own module. -/
def csvExtractorCls : PyClass := ⟨1, "CsvExtractor", "extractors.csv", [1, 0]⟩

/-- A module defining `CsvExtractor`, importing `BaseExtractor`, and
holding a non-class member. -/
def csvModule : PyModule :=
  ⟨"extractors.csv", [.cls baseExtractorCls, .cls csvExtractorCls, .nonClass 7]⟩

/-- Concrete instantiation of the discovery claim. -/
theorem C6_discovery_returns_defined_subclasses_witness :
    csvExtractorCls ∈ discover_component_classes csvModule baseExtractorCls true ∧
    PyMember.cls csvExtractorCls ∈ csvModule.members ∧
    csvExtractorCls ∈ discover_extractors [csvModule] baseExtractorCls := by
  refine ⟨?_, ?_, ?_⟩
  · exact (C6_discovery_returns_defined_subclasses.1 csvModule baseExtractorCls
      csvExtractorCls).mpr (by decide)
  · exact C6_discovery_returns_defined_subclasses.2.1 csvModule baseExtractorCls
      csvExtractorCls (by decide)
  · exact (C6_discovery_returns_defined_subclasses.2.2.1 [csvModule] baseExtractorCls
      csvExtractorCls).mpr ⟨csvModule, by decide, by decide⟩

/-- Errors raised along `WorkflowManager.create_pipeline_from_template` /
`create_template_from_pipeline` (workflow_manager.py), one constructor
per raise site. -/
inductive MErr where
  | schemaInvalid
  | templateErr (e : TErr)
  | missingNameOrType (componentKey : String)
  | unknownComponentType (componentKey : String) (typeName : String)
  | failedInstantiate (componentKey : String) (name : String)
  | noPipelines
  | pipelineMissingExtractor (pipeline : String)
  | resolvedRefMissingName (role : String)
  | invalidRefFormat (role : String)
  | instanceNotFound (role : String) (name : String)
  | attributeErrorNone (attr : String)
  | validationErr (e : VErr)
  | registryErr (e : RegErr)
deriving Repr, DecidableEq

/-- Whether a reference value conforms to the schema's
`extractor_ref` / `transformer_ref` / `loader_ref` (`oneOf` a string or a
component object): `null` conforms to neither. -/
def validRef : CompRef → Bool
  | .nullv => false
  | _ => true

/-- Schema conformance of one pipeline entry: in the typed representation
the required keys and their primitive types hold by construction, so what
remains of `PIPELINE_SCHEMA` is the `oneOf` constraint on each reference. -/
def validatePipelineTemplate (p : PipelineTemplate) : Bool :=
  validRef p.extractor && p.transformers.all validRef &&
  (match p.loader with | some r => validRef r | none => true)

/-- `TemplateParser.validate_template` against `WORKFLOW_SCHEMA`
(templates.py lines 125-139): required keys (`version`, `pipelines`),
the section item schemas and the primitive types hold by construction of
the typed representation; the remaining content is the per-pipeline
reference `oneOf`. -/
def TemplateParser.validate_template (t : WorkflowTemplate) : Bool :=
  t.pipelines.all validatePipelineTemplate

/-- `TemplateGenerator.generate_extractor_template` (templates.py lines
269-283); `generate_transformer_template` and `generate_loader_template`
are textually identical. -/
def TemplateGenerator.generate_component_template (name type_name : String)
    (config : List (String × String)) : CompDef :=
  ⟨name, type_name, config⟩

/-- `TemplateGenerator.generate_pipeline_template` (templates.py lines
317-350): the returned dict always includes the `loader` key, with the
argument's value — `null` when the caller passed `None`. -/
def TemplateGenerator.generate_pipeline_template (name : String) (extractor : CompRef)
    (transformers : List CompRef) (loader : CompRef) (description : String)
    (config metadata : List (String × String)) : PipelineTemplate :=
  ⟨name, description, extractor, transformers, some loader, config, metadata⟩

/-- `TemplateGenerator.generate_workflow_template` (templates.py lines
234-267). -/
def TemplateGenerator.generate_workflow_template (name description version : String)
    (extractors transformers loaders : List CompDef)
    (pipelines : List PipelineTemplate) : WorkflowTemplate :=
  ⟨name, version, description, extractors, transformers, loaders, pipelines⟩

/-- `CompDef` view of a component instance, as
`create_template_from_pipeline` builds it: instance name, class name,
config. -/
def mkDefOf (t : CInst) : CompDef := ⟨t.name, t.typeName, t.config⟩

/-- `WorkflowManager.create_template_from_pipeline` (workflow_manager.py
lines 325-386): look the pipeline up, emit one component definition per
component, and a pipeline entry referencing the components *by name*;
the pipeline entry's `loader` key is always present — `null` when the
pipeline has no loader.  Saving and re-loading the YAML/JSON file round-
trips the document and is elided. -/
def WorkflowManager.create_template_from_pipeline (r : Registry) (pipeline_name : String) :
    Except MErr WorkflowTemplate :=
  match r.get_pipeline pipeline_name with
  | .error e => .error (.registryErr e)
  | .ok p =>
    match p.extractor with
    | none => .error (.attributeErrorNone "extractor")
    | some ex =>
      let extractor_template := TemplateGenerator.generate_component_template
        ex.name ex.typeName ex.config
      let transformer_templates := p.transformers.map (fun t =>
        TemplateGenerator.generate_component_template t.name t.typeName t.config)
      let loader_template := p.loader.map (fun l =>
        TemplateGenerator.generate_component_template l.name l.typeName l.config)
      let pipeline_template := TemplateGenerator.generate_pipeline_template
        p.name (.ref ex.name)
        (p.transformers.map (fun t => .ref t.name))
        (match p.loader with | some l => .ref l.name | none => .nullv)
        ("Pipeline generated from " ++ pipeline_name)
        p.config
        [("generated", "True"), ("original_pipeline", pipeline_name)]
      .ok (TemplateGenerator.generate_workflow_template
        (pipeline_name ++ "_workflow")
        ("Workflow template generated from pipeline " ++ pipeline_name)
        "1.0.0"
        [extractor_template]
        transformer_templates
        (match loader_template with | some lt => [lt] | none => [])
        [pipeline_template])

/-- `_instantiate_components_from_template` for the `extractors` section
(workflow_manager.py lines 236-282 with `register_extractor`): check
`name`/`type` truthiness, get the class from the type store
(`ConfigurationError` if unknown), instantiate with the template's name
and config, register; any exception there becomes `ConfigurationError`
"Failed to instantiate". -/
def instantiateExtractors (r : Registry) : List CompDef → Except MErr Registry
  | [] => .ok r
  | d :: ds =>
    if d.name == "" || d.type == "" then .error (.missingNameOrType "extractors")
    else
      match r.get_extractor_type d.type with
      | .error _ => .error (.unknownComponentType "extractors" d.type)
      | .ok c =>
        match r.register_extractor (c.instantiate d.name d.config) with
        | (r', none) => instantiateExtractors r' ds
        | (_, some _) => .error (.failedInstantiate "extractors" d.name)

/-- `_instantiate_components_from_template` for the `transformers`
section (with `register_transformer`, which raises on a duplicate
name). -/
def instantiateTransformers (r : Registry) : List CompDef → Except MErr Registry
  | [] => .ok r
  | d :: ds =>
    if d.name == "" || d.type == "" then .error (.missingNameOrType "transformers")
    else
      match r.get_transformer_type d.type with
      | .error _ => .error (.unknownComponentType "transformers" d.type)
      | .ok c =>
        match r.register_transformer (c.instantiate d.name d.config) with
        | (r', none) => instantiateTransformers r' ds
        | (_, some _) => .error (.failedInstantiate "transformers" d.name)

/-- `_instantiate_components_from_template` for the `loaders` section
(with `register_loader`, which raises on a duplicate name). -/
def instantiateLoaders (r : Registry) : List CompDef → Except MErr Registry
  | [] => .ok r
  | d :: ds =>
    if d.name == "" || d.type == "" then .error (.missingNameOrType "loaders")
    else
      match r.get_loader_type d.type with
      | .error _ => .error (.unknownComponentType "loaders" d.type)
      | .ok c =>
        match r.register_loader (c.instantiate d.name d.config) with
        | (r', none) => instantiateLoaders r' ds
        | (_, some _) => .error (.failedInstantiate "loaders" d.name)

/-- Name extraction for the pipeline's extractor reference
(workflow_manager.py lines 156-169): `None` and the empty string are
falsy and yield "must define an extractor"; a resolved dict must carry a
truthy `name`. -/
def extractorName (pname : String) : CompRef → Except MErr String
  | .nullv => .error (.pipelineMissingExtractor pname)
  | .inline d =>
    if d.name == "" then .error (.resolvedRefMissingName "extractor") else .ok d.name
  | .ref n =>
    if n == "" then .error (.pipelineMissingExtractor pname) else .ok n

/-- Name extraction for one transformer reference (lines 180-190): no
truthiness pre-check here; a non-dict non-string value is an invalid
format. -/
def transformerName : CompRef → Except MErr String
  | .nullv => .error (.invalidRefFormat "transformer")
  | .inline d =>
    if d.name == "" then .error (.resolvedRefMissingName "transformer") else .ok d.name
  | .ref n => .ok n

/-- The transformer lookup loop (lines 179-197): extract each name and
fetch the registered instance (`ConfigurationError` when absent). -/
def lookupTransformerInsts (r : Registry) : List CompRef → Except MErr (List CInst)
  | [] => .ok []
  | rr :: rest =>
    match transformerName rr with
    | .error e => .error e
    | .ok n =>
      match r.get_transformer n with
      | .error _ => .error (.instanceNotFound "transformer" n)
      | .ok inst =>
        match lookupTransformerInsts r rest with
        | .error e => .error e
        | .ok insts => .ok (inst :: insts)

/-- The loader lookup (lines 199-217): `if loader_ref_obj:` — an absent
key, `null`, and the empty string are all falsy and leave the loader
`None`. -/
def lookupLoaderInst (r : Registry) : Option CompRef → Except MErr (Option CInst)
  | none => .ok none
  | some .nullv => .ok none
  | some (.inline d) =>
    if d.name == "" then .error (.resolvedRefMissingName "loader")
    else
      match r.get_loader d.name with
      | .error _ => .error (.instanceNotFound "loader" d.name)
      | .ok inst => .ok (some inst)
  | some (.ref n) =>
    if n == "" then .ok none
    else
      match r.get_loader n with
      | .error _ => .error (.instanceNotFound "loader" n)
      | .ok inst => .ok (some inst)

/-- Pipeline construction from the first pipeline entry of the resolved
template (workflow_manager.py lines 149-234): look up the component
*instances* by name, build the `Pipeline`, validate it, register it. -/
def buildPipelineFromData (r : Registry) (pd : PipelineTemplate) :
    Except MErr (Registry × RPipeline) :=
  match extractorName pd.name pd.extractor with
  | .error e => .error e
  | .ok en =>
    match r.get_extractor en with
    | .error _ => .error (.instanceNotFound "extractor" en)
    | .ok exInst =>
      match lookupTransformerInsts r pd.transformers with
      | .error e => .error e
      | .ok tInsts =>
        match lookupLoaderInst r pd.loader with
        | .error e => .error e
        | .ok ldInst =>
          match WorkflowValidator.validate_pipeline ⟨pd.name, some exInst, tInsts, ldInst, pd.config⟩ with
          | .error e => .error (.validationErr e)
          | .ok _ =>
            match r.register_pipeline ⟨pd.name, some exInst, tInsts, ldInst, pd.config⟩ with
            | (r', none) => .ok (r', ⟨pd.name, some exInst, tInsts, ldInst, pd.config⟩)
            | (_, some e) => .error (.registryErr e)

/-- `WorkflowManager.create_pipeline_from_template` (workflow_manager.py
lines 109-234): schema-validate, resolve references, instantiate and
register the components of the three sections, then build and register
the pipeline from the template's first pipeline entry.  (File loading is
elided: the template value stands for the parsed document.) -/
def WorkflowManager.create_pipeline_from_template (r : Registry) (t : WorkflowTemplate) :
    Except MErr (Registry × RPipeline) :=
  if !(TemplateParser.validate_template t) then .error .schemaInvalid
  else
    match TemplateParser.resolve_references t with
    | .error e => .error (.templateErr e)
    | .ok rt =>
      match instantiateExtractors r rt.extractors with
      | .error e => .error e
      | .ok r1 =>
        match instantiateTransformers r1 rt.transformers with
        | .error e => .error e
        | .ok r2 =>
          match instantiateLoaders r2 rt.loaders with
          | .error e => .error e
          | .ok r3 =>
            match rt.pipelines with
            | [] => .error .noPipelines
            | pd :: _ => buildPipelineFromData r3 pd

/-- Extractor instance for the manager round-trip evaluations. -/
def ceEx : CInst := ⟨"ex1", "CsvExtractor", [], some "s.csv", none, none⟩

/-- Transformer instance for the manager round-trip evaluations. -/
def ceT : CInst := ⟨"t1", "FilterTransformer", [], none, none, none⟩

/-- Loader instance for the manager round-trip evaluations. -/
def ceL : CInst := ⟨"l1", "DatabaseLoader", [], none, none, none⟩

/-- A pipeline with one transformer and *no loader*. -/
def pNL : RPipeline := ⟨"pnl", some ceEx, [ceT], none, []⟩

/-- Registry holding `pNL`. -/
def rNL : Registry := ⟨[], [], [], [("pnl", pNL)], [], [], []⟩

/-- A pipeline with *zero transformers* and a loader. -/
def pZT : RPipeline := ⟨"pzt", some ceEx, [], some ceL, []⟩

/-- Registry holding `pZT`. -/
def rZT : Registry := ⟨[], [], [], [("pzt", pZT)], [], [], []⟩

/-- The extractor class referenced by `ceEx`. -/
def ceExCls : CompClass := ⟨"CsvExtractor", some "s.csv", none, none⟩

/-- The loader class referenced by `ceL`. -/
def ceLCls : CompClass := ⟨"DatabaseLoader", none, none, none⟩

/-- A fresh registry holding exactly the component types `pZT` references. -/
def rTypes : Registry :=
  ⟨[], [], [], [], [("CsvExtractor", ceExCls)], [], [("DatabaseLoader", ceLCls)]⟩

/-- Claim C7 counterexample.  (a) For the registered pipeline `pnl`,
which has no loader, `create_template_from_pipeline` emits a pipeline
entry with `loader: null`, and the generated template *fails* the
template parser's schema validation (`loader_ref` admits only a string
or an object).  (b) For the registered pipeline `pzt`, which has zero
transformers, the generated template passes schema validation but
`create_pipeline_from_template` — run with the referenced component
types available — fails with `ValidationError`, because the
reconstruction re-validates the pipeline and `validate_pipeline`
requires at least one transformer; so no pipeline is reconstructed. -/
theorem C7_counterexample_no_loader_or_no_transformer :
    (∃ tpl, WorkflowManager.create_template_from_pipeline rNL "pnl" = .ok tpl ∧
      TemplateParser.validate_template tpl = false) ∧
    (∃ tpl, WorkflowManager.create_template_from_pipeline rZT "pzt" = .ok tpl ∧
      TemplateParser.validate_template tpl = true ∧
      WorkflowManager.create_pipeline_from_template rTypes tpl =
        .error (.validationErr (.pipelineMustHaveTransformer "pzt"))) :=
  ⟨⟨_, rfl, rfl⟩, ⟨_, rfl, rfl, rfl⟩⟩

theorem find?_eq_of_unique {β : Type} (p : β → Bool) (l : List β) (a : β)
    (ha : a ∈ l) (hpa : p a = true)
    (huniq : ∀ b ∈ l, p b = true → b = a) : l.find? p = some a := by
  induction l with
  | nil => cases ha
  | cons x l ih =>
    by_cases hx : p x = true
    · have hxa : x = a := huniq x (List.mem_cons_self x l) hx
      subst hxa
      rw [List.find?_cons_of_pos _ hx]
    · rw [List.find?_cons_of_neg _ (by simpa using hx)]
      rcases List.mem_cons.mp ha with rfl | hmem
      · exact absurd hpa hx
      · exact ih hmem (fun b hb hpb => huniq b (List.mem_cons_of_mem _ hb) hpb)

theorem sectionIndex_singleton (d : CompDef) : sectionIndex [d] d.name = some d := by
  simp [sectionIndex, List.find?]

theorem sectionIndex_map_mkDefOf (ts : List CInst) (t : CInst) (ht : t ∈ ts)
    (hnd : (ts.map CInst.name).Nodup) :
    sectionIndex (ts.map mkDefOf) t.name = some (mkDefOf t) := by
  unfold sectionIndex
  apply find?_eq_of_unique
  · rw [List.mem_reverse]
    exact List.mem_map.mpr ⟨t, ht, rfl⟩
  · simp [mkDefOf]
  · intro b hb hpb
    rw [List.mem_reverse] at hb
    obtain ⟨u, hu, hub⟩ := List.mem_map.mp hb
    subst hub
    have hname : u.name = t.name := by simpa [mkDefOf] using hpb
    have : u = t := List.inj_on_of_nodup_map hnd hu ht hname
    rw [this]

/-- A placeholder class, never reached when the type lookups succeed. -/
def dummyClass : CompClass := ⟨"", none, none, none⟩

/-- The pipeline `create_pipeline_from_template` reconstructs from the
template generated for `p`: each component re-instantiated from its
class in `r'` with the original name and config. -/
def reinstantiated (r' : Registry) (p : RPipeline) (ex ld : CInst) : RPipeline :=
  { name := p.name,
    extractor := (dlookup ex.typeName r'.extractor_types).map
      (fun c => c.instantiate ex.name ex.config),
    transformers := p.transformers.map (fun t =>
      ((dlookup t.typeName r'.transformer_types).getD dummyClass).instantiate t.name t.config),
    loader := (dlookup ld.typeName r'.loader_types).map
      (fun c => c.instantiate ld.name ld.config),
    config := p.config }

theorem instantiateExtractors_singleton (r : Registry) (d : CompDef) (c : CompClass)
    (hn : ¬ d.name = "") (ht : ¬ d.type = "")
    (hc : dlookup d.type r.extractor_types = some c) :
    instantiateExtractors r [d] =
      .ok { r with extractors := dinsert d.name (c.instantiate d.name d.config) r.extractors } := by
  have hn' : (d.name == "") = false := by simpa using hn
  have ht' : (d.type == "") = false := by simpa using ht
  simp [instantiateExtractors, hn', ht', Registry.get_extractor_type, hc,
    Registry.register_extractor, CompClass.instantiate]

theorem instantiateLoaders_singleton (r : Registry) (d : CompDef) (c : CompClass)
    (hn : ¬ d.name = "") (ht : ¬ d.type = "")
    (hc : dlookup d.type r.loader_types = some c)
    (hfree : dlookup d.name r.loaders = none) :
    instantiateLoaders r [d] =
      .ok { r with loaders := dinsert d.name (c.instantiate d.name d.config) r.loaders } := by
  have hn' : (d.name == "") = false := by simpa using hn
  have ht' : (d.type == "") = false := by simpa using ht
  simp [instantiateLoaders, hn', ht', Registry.get_loader_type, hc,
    Registry.register_loader, CompClass.instantiate, hfree]

theorem instantiateTransformers_ok :
    ∀ (ds : List CompDef) (r : Registry),
      (∀ d ∈ ds, ¬ d.name = "" ∧ ¬ d.type = "") →
      (∀ d ∈ ds, (dlookup d.type r.transformer_types).isSome = true) →
      (∀ d ∈ ds, dlookup d.name r.transformers = none) →
      (ds.map CompDef.name).Nodup →
      ∃ r'', instantiateTransformers r ds = .ok r'' ∧
        r''.extractors = r.extractors ∧
        r''.loaders = r.loaders ∧
        r''.pipelines = r.pipelines ∧
        r''.extractor_types = r.extractor_types ∧
        r''.transformer_types = r.transformer_types ∧
        r''.loader_types = r.loader_types ∧
        (∀ n, n ∉ ds.map CompDef.name →
          dlookup n r''.transformers = dlookup n r.transformers) ∧
        (∀ d ∈ ds, dlookup d.name r''.transformers =
          some (((dlookup d.type r.transformer_types).getD dummyClass).instantiate
            d.name d.config)) := by
  intro ds
  induction ds with
  | nil =>
    intro r _ _ _ _
    exact ⟨r, rfl, rfl, rfl, rfl, rfl, rfl, rfl, fun n _ => rfl,
      fun d hd => absurd hd (by simp)⟩
  | cons d ds ih =>
    intro r hnames htypes hfree hnd
    obtain ⟨hn, ht⟩ := hnames d (List.mem_cons_self d ds)
    have hn' : (d.name == "") = false := by simpa using hn
    have ht' : (d.type == "") = false := by simpa using ht
    obtain ⟨c, hc⟩ := Option.isSome_iff_exists.mp (htypes d (List.mem_cons_self d ds))
    have hfr : dlookup d.name r.transformers = none := hfree d (List.mem_cons_self d ds)
    have hstep : instantiateTransformers r (d :: ds) =
        instantiateTransformers
          { r with transformers :=
              dinsert d.name (c.instantiate d.name d.config) r.transformers } ds := by
      simp [instantiateTransformers, hn', ht', Registry.get_transformer_type, hc,
        Registry.register_transformer, CompClass.instantiate, hfr]
    rw [List.map_cons, List.nodup_cons] at hnd
    obtain ⟨hdn, hnd'⟩ := hnd
    have hne : ∀ d' ∈ ds, ¬ d'.name = d.name := by
      intro d' hd' heq
      exact hdn (heq ▸ List.mem_map.mpr ⟨d', hd', rfl⟩)
    obtain ⟨r'', hok, he1, he2, he3, he4, he5, he6, hpres, hlook⟩ :=
      ih { r with transformers :=
              dinsert d.name (c.instantiate d.name d.config) r.transformers }
        (fun d' hd' => hnames d' (List.mem_cons_of_mem _ hd'))
        (fun d' hd' => htypes d' (List.mem_cons_of_mem _ hd'))
        (fun d' hd' => by
          have hrw : dlookup d'.name
              (dinsert d.name (c.instantiate d.name d.config) r.transformers) =
              dlookup d'.name r.transformers :=
            dlookup_dinsert_ne d.name d'.name _ r.transformers (hne d' hd')
          show dlookup d'.name
              (dinsert d.name (c.instantiate d.name d.config) r.transformers) = none
          rw [hrw]
          exact hfree d' (List.mem_cons_of_mem _ hd'))
        hnd'
    refine ⟨r'', by rw [hstep]; exact hok, he1, he2, he3, he4, he5, he6, ?_, ?_⟩
    · intro n hnmem
      rw [List.map_cons, List.mem_cons] at hnmem
      push_neg at hnmem
      obtain ⟨hn1, hn2⟩ := hnmem
      rw [hpres n hn2]
      exact dlookup_dinsert_ne d.name n _ r.transformers hn1
    · intro d' hd'
      rcases List.mem_cons.mp hd' with rfl | hmem
      · rw [hpres d'.name hdn, hc, Option.getD_some]
        exact dlookup_dinsert_self d'.name (c.instantiate d'.name d'.config) r.transformers
      · exact hlook d' hmem

theorem map_name_mkDefOf (ts : List CInst) :
    (ts.map mkDefOf).map CompDef.name = ts.map CInst.name := by
  rw [List.map_map]
  rfl

theorem lookupTransformerInsts_map_inline (g : CompDef → CInst) (r : Registry) :
    ∀ (ds : List CompDef),
      (∀ d ∈ ds, ¬ d.name = "") →
      (∀ d ∈ ds, dlookup d.name r.transformers = some (g d)) →
      lookupTransformerInsts r (ds.map CompRef.inline) = .ok (ds.map g) := by
  intro ds
  induction ds with
  | nil => intro _ _; rfl
  | cons d ds ih =>
    intro hnames hlook
    have hn' : (d.name == "") = false := by
      simpa using hnames d (List.mem_cons_self d ds)
    have hl := hlook d (List.mem_cons_self d ds)
    have hrest := ih (fun d' hd' => hnames d' (List.mem_cons_of_mem _ hd'))
      (fun d' hd' => hlook d' (List.mem_cons_of_mem _ hd'))
    simp [lookupTransformerInsts, transformerName, hn', Registry.get_transformer, hl, hrest]

/-- The pipeline entry `create_template_from_pipeline` generates for a
pipeline `p` with loader `ld`. -/
def genPipeTpl (pname : String) (p : RPipeline) (ex ld : CInst) : PipelineTemplate :=
  ⟨p.name, "Pipeline generated from " ++ pname, .ref ex.name,
   p.transformers.map (fun t => CompRef.ref t.name),
   some (.ref ld.name), p.config,
   [("generated", "True"), ("original_pipeline", pname)]⟩

/-- The workflow template `create_template_from_pipeline` generates for a
pipeline `p` with loader `ld`. -/
def genTpl (pname : String) (p : RPipeline) (ex ld : CInst) : WorkflowTemplate :=
  ⟨pname ++ "_workflow", "1.0.0",
   "Workflow template generated from pipeline " ++ pname,
   [mkDefOf ex], p.transformers.map mkDefOf, [mkDefOf ld],
   [genPipeTpl pname p ex ld]⟩

/-- The generated pipeline entry after reference resolution. -/
def genPipeResolved (pname : String) (p : RPipeline) (ex ld : CInst) : PipelineTemplate :=
  ⟨p.name, "Pipeline generated from " ++ pname, .inline (mkDefOf ex),
   p.transformers.map (fun t => CompRef.inline (mkDefOf t)),
   some (.inline (mkDefOf ld)), p.config,
   [("generated", "True"), ("original_pipeline", pname)]⟩

/-- The generated template after reference resolution. -/
def genTplResolved (pname : String) (p : RPipeline) (ex ld : CInst) : WorkflowTemplate :=
  ⟨pname ++ "_workflow", "1.0.0",
   "Workflow template generated from pipeline " ++ pname,
   [mkDefOf ex], p.transformers.map mkDefOf, [mkDefOf ld],
   [genPipeResolved pname p ex ld]⟩

theorem create_template_eq (r : Registry) (pname : String) (p : RPipeline) (ex ld : CInst)
    (hreg : dlookup pname r.pipelines = some p)
    (hex : p.extractor = some ex) (hld : p.loader = some ld) :
    WorkflowManager.create_template_from_pipeline r pname = .ok (genTpl pname p ex ld) := by
  simp only [WorkflowManager.create_template_from_pipeline, Registry.get_pipeline, hreg,
    hex, hld]
  rfl

theorem genTpl_schema_ok (pname : String) (p : RPipeline) (ex ld : CInst) :
    TemplateParser.validate_template (genTpl pname p ex ld) = true := by
  simp only [TemplateParser.validate_template, genTpl, genPipeTpl, List.all_cons,
    List.all_nil, validatePipelineTemplate, validRef, Bool.and_true, Bool.true_and]
  apply List.all_eq_true.mpr
  intro x hx
  obtain ⟨t, _, rfl⟩ := List.mem_map.mp hx
  rfl

theorem sectionIndex_mkDefOf_self (x : CInst) :
    sectionIndex [mkDefOf x] x.name = some (mkDefOf x) := by
  simp [sectionIndex, List.find?, mkDefOf]

theorem genPipeTpl_resolvable (pname : String) (p : RPipeline) (ex ld : CInst)
    (hnodup : (p.transformers.map CInst.name).Nodup) :
    pipelineResolvable [mkDefOf ex] (p.transformers.map mkDefOf) [mkDefOf ld]
      (genPipeTpl pname p ex ld) = true := by
  unfold pipelineResolvable genPipeTpl
  simp only [refResolvable, sectionIndex_mkDefOf_self, Option.isSome_some, Bool.true_and,
    Bool.and_true]
  apply List.all_eq_true.mpr
  intro x hx
  obtain ⟨t, ht, rfl⟩ := List.mem_map.mp hx
  show refResolvable (p.transformers.map mkDefOf) (.ref t.name) = true
  simp [refResolvable, sectionIndex_map_mkDefOf p.transformers t ht hnodup]

theorem genPipeTpl_resolveSpec (pname : String) (p : RPipeline) (ex ld : CInst)
    (hnodup : (p.transformers.map CInst.name).Nodup) :
    pipelineResolveSpec [mkDefOf ex] (p.transformers.map mkDefOf) [mkDefOf ld]
      (genPipeTpl pname p ex ld) = genPipeResolved pname p ex ld := by
  have hext : refResolveSpec [mkDefOf ex] (CompRef.ref ex.name) = .inline (mkDefOf ex) := by
    simp [refResolveSpec, sectionIndex_mkDefOf_self]
  have htr : (p.transformers.map (fun t => CompRef.ref t.name)).map
      (refResolveSpec (p.transformers.map mkDefOf)) =
      p.transformers.map (fun t => CompRef.inline (mkDefOf t)) := by
    rw [List.map_map]
    apply List.map_congr_left
    intro t ht
    show refResolveSpec (p.transformers.map mkDefOf) (.ref t.name) = .inline (mkDefOf t)
    simp [refResolveSpec, sectionIndex_map_mkDefOf p.transformers t ht hnodup]
  have hldr : (some (CompRef.ref ld.name)).map (refResolveSpec [mkDefOf ld]) =
      some (CompRef.inline (mkDefOf ld)) := by
    simp [refResolveSpec, sectionIndex_mkDefOf_self]
  simp only [pipelineResolveSpec, genPipeTpl, genPipeResolved]
  rw [hext, htr, hldr]

theorem genTpl_resolve_eq (pname : String) (p : RPipeline) (ex ld : CInst)
    (hnodup : (p.transformers.map CInst.name).Nodup) :
    TemplateParser.resolve_references (genTpl pname p ex ld) =
      .ok (genTplResolved pname p ex ld) := by
  have hrp : resolvePipelines [mkDefOf ex] (p.transformers.map mkDefOf) [mkDefOf ld]
      [genPipeTpl pname p ex ld] = .ok [genPipeResolved pname p ex ld] := by
    refine ((resolvePipelines_spec _ _ _ _).1 _).mpr ⟨?_, ?_⟩
    · simp [genPipeTpl_resolvable pname p ex ld hnodup]
    · simp [genPipeTpl_resolveSpec pname p ex ld hnodup]
  unfold TemplateParser.resolve_references
  simp only [genTpl]
  rw [hrp]
  rfl

/-- Claim C7 (amended): the manager reverses pipeline construction for
every registered pipeline that has at least one transformer and a
loader.  `create_template_from_pipeline` emits a template that passes
the parser's schema validation, and `create_pipeline_from_template` —
run against a registry that has the referenced component types, no
instance-name or pipeline-name conflicts, and whose re-instantiated
components pass pipeline validation — reconstructs a pipeline with the
same name, extractor name, transformer names in order, and loader name.
(For a pipeline without a loader the generated template carries
`loader: null` and fails schema validation; for one without transformers
the reconstruction's re-validation fails; both are excluded, as the
counterexample shows they must be.  Pipelines with at least one
transformer satisfy the transformer hypotheses vacuously or directly;
validation of the reconstruction implies the transformer list is
non-empty.) -/
theorem C7_pipeline_template_roundtrip
    (r : Registry) (pname : String) (p : RPipeline) (ex ld : CInst) (r' : Registry)
    (hreg : dlookup pname r.pipelines = some p)
    (hex : p.extractor = some ex)
    (hld : p.loader = some ld)
    (hexn : ¬ ex.name = "") (hexty : ¬ ex.typeName = "")
    (hldn : ¬ ld.name = "") (hldty : ¬ ld.typeName = "")
    (htn : ∀ t ∈ p.transformers, ¬ t.name = "" ∧ ¬ t.typeName = "")
    (hnodup : (p.transformers.map CInst.name).Nodup)
    (hety : (dlookup ex.typeName r'.extractor_types).isSome = true)
    (htty : ∀ t ∈ p.transformers, (dlookup t.typeName r'.transformer_types).isSome = true)
    (hlty : (dlookup ld.typeName r'.loader_types).isSome = true)
    (hnoT : ∀ t ∈ p.transformers, dlookup t.name r'.transformers = none)
    (hnoL : dlookup ld.name r'.loaders = none)
    (hnoP : dlookup p.name r'.pipelines = none)
    (hvalid : WorkflowValidator.validate_pipeline (reinstantiated r' p ex ld) = .ok true) :
    ∃ tpl r'',
      WorkflowManager.create_template_from_pipeline r pname = .ok tpl ∧
      TemplateParser.validate_template tpl = true ∧
      WorkflowManager.create_pipeline_from_template r' tpl =
        .ok (r'', reinstantiated r' p ex ld) ∧
      (reinstantiated r' p ex ld).name = p.name ∧
      ((reinstantiated r' p ex ld).extractor).map CInst.name = some ex.name ∧
      (reinstantiated r' p ex ld).transformers.map CInst.name =
        p.transformers.map CInst.name ∧
      ((reinstantiated r' p ex ld).loader).map CInst.name = some ld.name := by
  obtain ⟨ce, hce⟩ := Option.isSome_iff_exists.mp hety
  obtain ⟨cl, hcl⟩ := Option.isSome_iff_exists.mp hlty
  have htpl := create_template_eq r pname p ex ld hreg hex hld
  have hschema := genTpl_schema_ok pname p ex ld
  have hres := genTpl_resolve_eq pname p ex ld hnodup
  have hexn' : (ex.name == "") = false := by simpa using hexn
  have hldn' : (ld.name == "") = false := by simpa using hldn
  have hE : instantiateExtractors r' [mkDefOf ex] = .ok
      { r' with extractors :=
          (dinsert ex.name (ce.instantiate ex.name ex.config) r'.extractors) } :=
    instantiateExtractors_singleton r' (mkDefOf ex) ce hexn hexty hce
  obtain ⟨r2, hokT, he1, he2, he3, he4, he5, he6, hpresT, hlookT⟩ :=
    instantiateTransformers_ok (p.transformers.map mkDefOf)
      { r' with extractors :=
          (dinsert ex.name (ce.instantiate ex.name ex.config) r'.extractors) }
      (by
        intro d hd
        obtain ⟨t, ht, rfl⟩ := List.mem_map.mp hd
        exact htn t ht)
      (by
        intro d hd
        obtain ⟨t, ht, rfl⟩ := List.mem_map.mp hd
        exact htty t ht)
      (by
        intro d hd
        obtain ⟨t, ht, rfl⟩ := List.mem_map.mp hd
        exact hnoT t ht)
      (by rw [map_name_mkDefOf]; exact hnodup)
  have hL : instantiateLoaders r2 [mkDefOf ld] = .ok
      { r2 with loaders := dinsert ld.name (cl.instantiate ld.name ld.config) r2.loaders } := by
    apply instantiateLoaders_singleton r2 (mkDefOf ld) cl hldn hldty
    · show dlookup ld.typeName r2.loader_types = some cl
      rw [he6]
      exact hcl
    · show dlookup ld.name r2.loaders = none
      rw [he2]
      exact hnoL
  have hgetE : dlookup ex.name r2.extractors = some (ce.instantiate ex.name ex.config) := by
    rw [he1]
    exact dlookup_dinsert_self ex.name _ r'.extractors
  have hgetT : ∀ t ∈ p.transformers, dlookup t.name r2.transformers =
      some (((dlookup t.typeName r'.transformer_types).getD dummyClass).instantiate
        t.name t.config) := by
    intro t ht
    exact hlookT (mkDefOf t) (List.mem_map.mpr ⟨t, ht, rfl⟩)
  have hT3 : lookupTransformerInsts
      { r2 with loaders := dinsert ld.name (cl.instantiate ld.name ld.config) r2.loaders }
      ((p.transformers.map mkDefOf).map CompRef.inline) =
      .ok ((p.transformers.map mkDefOf).map (fun d =>
        ((dlookup d.type r'.transformer_types).getD dummyClass).instantiate
          d.name d.config)) := by
    apply lookupTransformerInsts_map_inline
    · intro d hd
      obtain ⟨t, ht, rfl⟩ := List.mem_map.mp hd
      exact (htn t ht).1
    · intro d hd
      obtain ⟨t, ht, rfl⟩ := List.mem_map.mp hd
      exact hgetT t ht
  have htrsfields : (genPipeResolved pname p ex ld).transformers =
      (p.transformers.map mkDefOf).map CompRef.inline := by
    show p.transformers.map (fun t => CompRef.inline (mkDefOf t)) = _
    rw [List.map_map]
    rfl
  have hq : (⟨p.name, some (ce.instantiate ex.name ex.config),
      (p.transformers.map mkDefOf).map (fun d =>
        ((dlookup d.type r'.transformer_types).getD dummyClass).instantiate d.name d.config),
      some (cl.instantiate ld.name ld.config), p.config⟩ : RPipeline) =
      reinstantiated r' p ex ld := by
    unfold reinstantiated
    rw [hce, hcl, List.map_map]
    rfl
  have hnoP2 : dlookup p.name r2.pipelines = none := by
    rw [he3]
    exact hnoP
  have hbuild : buildPipelineFromData
      { r2 with loaders := dinsert ld.name (cl.instantiate ld.name ld.config) r2.loaders }
      (genPipeResolved pname p ex ld) =
      .ok ({ r2 with
              loaders := dinsert ld.name (cl.instantiate ld.name ld.config) r2.loaders,
              pipelines := dinsert p.name (reinstantiated r' p ex ld) r2.pipelines },
            reinstantiated r' p ex ld) := by
    have h1 : extractorName (genPipeResolved pname p ex ld).name
        (genPipeResolved pname p ex ld).extractor = .ok ex.name := by
      show extractorName p.name (.inline (mkDefOf ex)) = .ok ex.name
      simp [extractorName, mkDefOf, hexn']
    have h2 : Registry.get_extractor
        { r2 with loaders := dinsert ld.name (cl.instantiate ld.name ld.config) r2.loaders }
        ex.name = .ok (ce.instantiate ex.name ex.config) := by
      unfold Registry.get_extractor
      have hx : dlookup ex.name
          ({ r2 with loaders :=
              dinsert ld.name (cl.instantiate ld.name ld.config) r2.loaders } :
            Registry).extractors = some (ce.instantiate ex.name ex.config) := hgetE
      rw [hx]
    have h3 : lookupTransformerInsts
        { r2 with loaders := dinsert ld.name (cl.instantiate ld.name ld.config) r2.loaders }
        (genPipeResolved pname p ex ld).transformers =
        .ok ((p.transformers.map mkDefOf).map (fun d =>
          ((dlookup d.type r'.transformer_types).getD dummyClass).instantiate
            d.name d.config)) := by
      rw [htrsfields]
      exact hT3
    have h4 : lookupLoaderInst
        { r2 with loaders := dinsert ld.name (cl.instantiate ld.name ld.config) r2.loaders }
        (genPipeResolved pname p ex ld).loader =
        .ok (some (cl.instantiate ld.name ld.config)) := by
      show lookupLoaderInst _ (some (.inline (mkDefOf ld))) = _
      have hy : dlookup ld.name
          ({ r2 with loaders :=
              dinsert ld.name (cl.instantiate ld.name ld.config) r2.loaders } :
            Registry).loaders = some (cl.instantiate ld.name ld.config) :=
        dlookup_dinsert_self ld.name _ r2.loaders
      simp [lookupLoaderInst, mkDefOf, hldn', Registry.get_loader, hy]
    have h5 : Registry.register_pipeline
        { r2 with loaders := dinsert ld.name (cl.instantiate ld.name ld.config) r2.loaders }
        (reinstantiated r' p ex ld) =
        ({ r2 with
            loaders := dinsert ld.name (cl.instantiate ld.name ld.config) r2.loaders,
            pipelines := dinsert p.name (reinstantiated r' p ex ld) r2.pipelines },
          none) := by
      unfold Registry.register_pipeline
      have hz : dlookup (reinstantiated r' p ex ld).name
          ({ r2 with loaders :=
              dinsert ld.name (cl.instantiate ld.name ld.config) r2.loaders } :
            Registry).pipelines = none := hnoP2
      rw [hz]
      simp
      rw [← hq]
    unfold buildPipelineFromData
    simp only [h1, h2, h3, h4]
    rw [show (genPipeResolved pname p ex ld).name = p.name from rfl,
        show (genPipeResolved pname p ex ld).config = p.config from rfl]
    rw [hq]
    simp only [hvalid, h5]
  have hcreate : WorkflowManager.create_pipeline_from_template r' (genTpl pname p ex ld) =
      .ok ({ r2 with
              loaders := dinsert ld.name (cl.instantiate ld.name ld.config) r2.loaders,
              pipelines := dinsert p.name (reinstantiated r' p ex ld) r2.pipelines },
            reinstantiated r' p ex ld) := by
    unfold WorkflowManager.create_pipeline_from_template
    rw [hschema]
    simp only [Bool.not_true, Bool.false_eq_true, if_false, hres, genTplResolved, hE,
      hokT, hL, hbuild]
  refine ⟨genTpl pname p ex ld, _, htpl, hschema, hcreate, rfl, ?_, ?_, ?_⟩
  · simp [reinstantiated, hce, CompClass.instantiate]
  · simp [reinstantiated, List.map_map, CompClass.instantiate]
  · simp [reinstantiated, hcl, CompClass.instantiate]

/-- Extractor instance for the round-trip witness. -/
def wEx : CInst := ⟨"ex1", "CsvExtractor", [], some "s.csv", some "list_of_dicts", none⟩

/-- Transformer instance for the round-trip witness. -/
def wT : CInst := ⟨"t1", "FilterTransformer", [], none, some "dict", some ["list_of_dicts"]⟩

/-- Loader instance for the round-trip witness. -/
def wL : CInst := ⟨"l1", "DatabaseLoader", [], none, none, some ["dict"]⟩

/-- A registered pipeline with one transformer and a loader. -/
def wP : RPipeline := ⟨"wp", some wEx, [wT], some wL, []⟩

/-- Registry in which `wP` is registered. -/
def wR : Registry := ⟨[], [], [], [("wp", wP)], [], [], []⟩

/-- Extractor class for the round-trip witness. -/
def wExCls : CompClass := ⟨"CsvExtractor", some "s.csv", some "list_of_dicts", none⟩

/-- Transformer class for the round-trip witness. -/
def wTCls : CompClass := ⟨"FilterTransformer", none, some "dict", some ["list_of_dicts"]⟩

/-- Loader class for the round-trip witness. -/
def wLCls : CompClass := ⟨"DatabaseLoader", none, none, some ["dict"]⟩

/-- A fresh registry holding exactly the component types `wP` references. -/
def wRT : Registry :=
  ⟨[], [], [], [], [("CsvExtractor", wExCls)], [("FilterTransformer", wTCls)],
   [("DatabaseLoader", wLCls)]⟩

/-- Concrete instantiation of the amended round-trip claim. -/
theorem C7_pipeline_template_roundtrip_witness :
    ∃ tpl r'',
      WorkflowManager.create_template_from_pipeline wR "wp" = .ok tpl ∧
      TemplateParser.validate_template tpl = true ∧
      WorkflowManager.create_pipeline_from_template wRT tpl =
        .ok (r'', reinstantiated wRT wP wEx wL) ∧
      (reinstantiated wRT wP wEx wL).name = wP.name ∧
      ((reinstantiated wRT wP wEx wL).extractor).map CInst.name = some wEx.name ∧
      (reinstantiated wRT wP wEx wL).transformers.map CInst.name =
        wP.transformers.map CInst.name ∧
      ((reinstantiated wRT wP wEx wL).loader).map CInst.name = some wL.name :=
  C7_pipeline_template_roundtrip wR "wp" wP wEx wL wRT rfl rfl rfl
    (by decide) (by decide) (by decide) (by decide)
    (by decide) (by decide) rfl (by decide) rfl
    (by decide) rfl rfl rfl
